import Mathlib

/-!
Verification model of the trusture NGO transparency platform.

The Go source is shallowly embedded:
* `float64` amounts, scores and ratings are modelled as exact rationals (`ℚ`);
  every concrete amount appearing in the verified scenarios is exactly
  representable in binary64 and all operations on them round to the same
  values, so the rational model agrees with the Go execution on those runs.
* `time.Time` values are modelled by their `UnixNano` instant (an `Int`);
  the calendar year of an instant is derived by `goYear`.
* SHA-256 (rendered as lowercase hex) is kept abstract: every definition that
  hashes takes an explicit digest function `H : String → String`.  Collision
  resistance is expressed, where a theorem needs it, as the hypothesis that
  `H` is injective; the fact that real digests are 64 lowercase hex characters
  is expressed as a hypothesis on the image of `H`.
* `fmt.Sprintf` decimal formatting (`%d`) is modelled by the executable
  printers `natDec` / `intDec` below, which produce the usual decimal string.
* in-place mutation is modelled by explicit state passing, `nil` pointers by
  `Option`, and fallible operations return `Except`/`Bool` exactly as the
  source reports them.
-/

set_option maxRecDepth 100000

namespace Trusture

/-! ### Decimal rendering (Go fmt %d) -/

/-- Digit characters of `n`, most significant first; fuel-based so that the
kernel can evaluate it. -/
def natDecAux : Nat → Nat → List Char
  | 0, _ => []
  | fuel+1, n =>
    if n < 10 then [Nat.digitChar n]
    else natDecAux fuel (n / 10) ++ [Nat.digitChar (n % 10)]

/-- Decimal rendering of a natural number, as Go fmt's %d produces. -/
def natDec (n : Nat) : String := String.mk (natDecAux (n + 1) n)

theorem natDecAux_eq (fuel n : Nat) (h : n < fuel) :
    natDecAux fuel n =
      if n = 0 then ['0'] else ((Nat.digits 10 n).reverse.map Nat.digitChar) := by
  induction fuel generalizing n with
  | zero => omega
  | succ fuel ih =>
    by_cases hn0 : n = 0
    · subst hn0
      simp [natDecAux, (by decide : Nat.digitChar 0 = '0')]
    by_cases hlt : n < 10
    · rw [natDecAux]
      simp only [hlt, if_true, hn0, if_false]
      rw [Nat.digits_of_lt 10 n hn0 hlt]
      rfl
    · rw [natDecAux]
      simp only [hlt, if_false, hn0]
      have hdiv : n / 10 < fuel := by
        have h1 : n / 10 < n := Nat.div_lt_self (Nat.pos_of_ne_zero hn0) (by norm_num)
        omega
      have hdn0 : n / 10 ≠ 0 :=
        (Nat.div_pos (by omega) (by norm_num)).ne'
      rw [ih (n / 10) hdiv]
      simp only [hdn0, if_false]
      rw [Nat.digits_def' (by norm_num : (1:ℕ) < 10) (Nat.pos_of_ne_zero hn0)]
      simp

/-- Inverse of `Nat.digitChar` on the decimal digits. -/
def charToDigit (c : Char) : Nat := c.toNat - 48

theorem charToDigit_digitChar {d : Nat} (h : d < 10) :
    charToDigit (Nat.digitChar d) = d := by
  revert h
  revert d
  decide

theorem decode_digit_list {L : List Nat} (hL : ∀ d ∈ L, d < 10) :
    (L.map Nat.digitChar).map charToDigit = L := by
  rw [List.map_map]
  conv_rhs => rw [← List.map_id L]
  exact List.map_congr_left fun d hd => charToDigit_digitChar (hL d hd)

theorem digitChar_isDigit {d : Nat} (h : d < 10) :
    (Nat.digitChar d).isDigit = true := by
  revert h
  revert d
  decide

theorem natDec_data (n : Nat) :
    (natDec n).data =
      if n = 0 then ['0'] else ((Nat.digits 10 n).reverse.map Nat.digitChar) := by
  show (natDecAux (n + 1) n) = _
  exact natDecAux_eq (n + 1) n (Nat.lt_succ_self n)

theorem natDec_chars (n : Nat) : ∀ c ∈ (natDec n).data, c.isDigit = true := by
  intro c hc
  rw [natDec_data] at hc
  by_cases hn : n = 0
  · simp [hn] at hc
    subst hc; decide
  · simp only [hn, if_false] at hc
    obtain ⟨d, hd, rfl⟩ := List.mem_map.mp hc
    have hd10 : d < 10 :=
      Nat.digits_lt_base (by norm_num) (List.mem_reverse.mp hd)
    exact digitChar_isDigit hd10

theorem natDec_ne_nil (n : Nat) : (natDec n).data ≠ [] := by
  rw [natDec_data]
  by_cases hn : n = 0
  · simp [hn]
  · simp only [hn, if_false]
    intro h
    rw [List.map_eq_nil_iff, List.reverse_eq_nil_iff] at h
    exact Nat.digits_ne_nil_iff_ne_zero.mpr hn h

theorem natDec_injective : Function.Injective natDec := by
  intro m n h
  have hdata : (natDec m).data = (natDec n).data := congrArg String.data h
  rw [natDec_data, natDec_data] at hdata
  by_cases hm : m = 0 <;> by_cases hn : n = 0
  · omega
  · exfalso
    simp only [hm, if_true, hn, if_false] at hdata
    have := congrArg (List.map charToDigit) hdata
    rw [decode_digit_list (fun d hd =>
      Nat.digits_lt_base (by norm_num) (List.mem_reverse.mp hd))] at this
    have h0 : (Nat.digits 10 n).reverse = [0] := by
      simpa [charToDigit] using this.symm
    have hlast : (Nat.digits 10 n).getLast (Nat.digits_ne_nil_iff_ne_zero.mpr hn) ≠ 0 :=
      Nat.getLast_digit_ne_zero 10 hn
    apply hlast
    have hrev : Nat.digits 10 n = [0] := by
      have := congrArg List.reverse h0
      simpa using this
    simp [List.getLast_eq_getElem, hrev]
  · exfalso
    simp only [hm, if_false, hn, if_true] at hdata
    have := congrArg (List.map charToDigit) hdata
    rw [decode_digit_list (fun d hd =>
      Nat.digits_lt_base (by norm_num) (List.mem_reverse.mp hd))] at this
    have h0 : (Nat.digits 10 m).reverse = [0] := by
      simpa [charToDigit] using this
    have hlast : (Nat.digits 10 m).getLast (Nat.digits_ne_nil_iff_ne_zero.mpr hm) ≠ 0 :=
      Nat.getLast_digit_ne_zero 10 hm
    apply hlast
    have hrev : Nat.digits 10 m = [0] := by
      have := congrArg List.reverse h0
      simpa using this
    simp [List.getLast_eq_getElem, hrev]
  · simp only [hm, if_false, hn, if_false] at hdata
    have := congrArg (List.map charToDigit) hdata
    rw [decode_digit_list (fun d hd =>
          Nat.digits_lt_base (by norm_num) (List.mem_reverse.mp hd)),
        decode_digit_list (fun d hd =>
          Nat.digits_lt_base (by norm_num) (List.mem_reverse.mp hd))] at this
    exact Nat.digits.injective 10 (List.reverse_injective this)

/-- Decimal rendering of an integer, as Go fmt's %d produces. -/
def intDec : Int → String
  | .ofNat n => natDec n
  | .negSucc n => "-" ++ natDec (n + 1)

theorem intDec_chars (i : Int) :
    ∀ c ∈ (intDec i).data, c.isDigit = true ∨ c = '-' := by
  intro c hc
  cases i with
  | ofNat n => exact Or.inl (natDec_chars n c hc)
  | negSucc n =>
    rw [show intDec (Int.negSucc n) = "-" ++ natDec (n + 1) from rfl,
      String.data_append] at hc
    rcases List.mem_append.mp hc with h | h
    · right
      simpa using h
    · exact Or.inl (natDec_chars (n + 1) c h)

theorem intDec_injective : Function.Injective intDec := by
  intro a b h
  cases a with
  | ofNat m =>
    cases b with
    | ofNat n => exact congrArg Int.ofNat (natDec_injective h)
    | negSucc n =>
      exfalso
      have hdata := congrArg String.data h
      rw [show intDec (Int.ofNat m) = natDec m from rfl,
        show intDec (Int.negSucc n) = "-" ++ natDec (n + 1) from rfl,
        String.data_append] at hdata
      have hmem : '-' ∈ (natDec m).data := by
        rw [hdata]
        simp
      have := natDec_chars m '-' hmem
      simp at this
  | negSucc m =>
    cases b with
    | ofNat n =>
      exfalso
      have hdata := congrArg String.data h
      rw [show intDec (Int.negSucc m) = "-" ++ natDec (m + 1) from rfl,
        show intDec (Int.ofNat n) = natDec n from rfl,
        String.data_append] at hdata
      have hmem : '-' ∈ (natDec n).data := by
        rw [← hdata]
        simp
      have := natDec_chars n '-' hmem
      simp at this
    | negSucc n =>
      have hdata := congrArg String.data h
      rw [show intDec (Int.negSucc m) = "-" ++ natDec (m + 1) from rfl,
        show intDec (Int.negSucc n) = "-" ++ natDec (n + 1) from rfl,
        String.data_append, String.data_append] at hdata
      have htail : (natDec (m + 1)).data = (natDec (n + 1)).data :=
        List.append_cancel_left hdata
      have hmn : m + 1 = n + 1 := natDec_injective (String.ext htail)
      have hmn' : m = n := by omega
      rw [hmn']

/-- Splitting a character list at a separator that occurs in neither prefix part. -/
theorem append_sep_split {sep : Char} :
    ∀ {a a' b b' : List Char}, sep ∉ a → sep ∉ a' →
      a ++ sep :: b = a' ++ sep :: b' → a = a' ∧ b = b' := by
  intro a
  induction a with
  | nil =>
    intro a' b b' _ ha' h
    cases a' with
    | nil => simpa using h
    | cons c t =>
      exfalso
      simp only [List.nil_append, List.cons_append, List.cons.injEq] at h
      exact ha' (h.1 ▸ List.mem_cons_self c t)
  | cons c t ih =>
    intro a' b b' ha ha' h
    cases a' with
    | nil =>
      exfalso
      simp only [List.cons_append, List.nil_append, List.cons.injEq] at h
      exact ha (h.1.symm ▸ List.mem_cons_self c t)
    | cons c' t' =>
      simp only [List.cons_append, List.cons.injEq] at h
      obtain ⟨hc, hrest⟩ := h
      have ht : sep ∉ t := fun hm => ha (List.mem_cons_of_mem c hm)
      have ht' : sep ∉ t' := fun hm => ha' (List.mem_cons_of_mem c' hm)
      obtain ⟨h1, h2⟩ := ih ht ht' hrest
      exact ⟨by rw [hc, h1], h2⟩

/-- Rendering of a rational number as an unambiguous string.  This models the
JSON rendering of a Go float64: the concrete text differs, but like Go's
shortest-representation encoder it is injective, which is the only property
any hash input below depends on. -/
def ratDec (q : ℚ) : String := intDec q.num ++ "/" ++ natDec q.den

theorem ratDec_injective : Function.Injective ratDec := by
  intro p q h
  have hdata := congrArg String.data h
  rw [show ratDec p = intDec p.num ++ "/" ++ natDec p.den from rfl,
    show ratDec q = intDec q.num ++ "/" ++ natDec q.den from rfl,
    String.data_append, String.data_append,
    String.data_append, String.data_append] at hdata
  have hsep : ∀ i : Int, '/' ∉ (intDec i).data := by
    intro i hmem
    rcases intDec_chars i '/' hmem with hd | hd
    · simp [Char.isDigit] at hd
    · simp at hd
  have hdata' : (intDec p.num).data ++ '/' :: (natDec p.den).data =
      (intDec q.num).data ++ '/' :: (natDec q.den).data := by
    simpa using hdata
  obtain ⟨h1, h2⟩ := append_sep_split (hsep p.num) (hsep q.num) hdata'
  have hnum : p.num = q.num := intDec_injective (String.ext h1)
  have hden : p.den = q.den := natDec_injective (String.ext h2)
  exact Rat.ext hnum hden

/-! ### Go string and time primitives -/

/-- Go strings.HasPrefix: does `s` start with `t`? -/
def strStarts (s t : String) : Bool := t.data.isPrefixOf s.data

/-- Membership of `sub` as a contiguous sublist of the second argument. -/
def hasSubList (sub : List Char) : List Char → Bool
  | [] => sub.isEmpty
  | c :: t => sub.isPrefixOf (c :: t) || hasSubList sub t

/-- Go strings.Contains. -/
def goContains (s sub : String) : Bool := hasSubList sub.data s.data

/-- Go strings.ToLower (the strings of this codebase are ASCII). -/
def goToLower (s : String) : String := String.mk (s.data.map Char.toLower)

/-- Go strings.ToUpper. -/
def goToUpper (s : String) : String := String.mk (s.data.map Char.toUpper)

/-- Go string slicing s[:n] (the sliced strings here are ASCII, so bytes and
characters agree). -/
def strTake (s : String) (n : Nat) : String := String.mk (s.data.take n)

/-- Go strings.Repeat. -/
def goRepeat (s : String) (count : Nat) : String :=
  String.join (List.replicate count s)

/-- Nanoseconds-since-epoch instant of a Go time.Time value. -/
abbrev GoTime := Int

/-- Go time.Time.Unix(): seconds since the epoch. -/
def goUnix (t : GoTime) : Int := t.tdiv 1000000000

/-- Calendar year of an instant, using 365-day years from 1970: a
simplification of Go's calendar arithmetic that agrees with it on the
within-one-year scenarios the claims exercise. -/
def goYear (t : GoTime) : Int := 1970 + t.tdiv 31536000000000000

/-- Hours of the duration from `b` to `a`: Go a.Sub(b).Hours(). -/
def hoursBetween (a b : GoTime) : ℚ := ((a - b : Int) : ℚ) / 3600000000000

/-! ### pkg/blockchain/block.go -/

structure Validator where
  validatorID : String
  signature : String
  validationType : String
  timestamp : GoTime
deriving DecidableEq

structure Block where
  index : Nat
  timestamp : GoTime
  data : String
  previousHash : String
  blockType : String
  hash : String
  nonce : Nat
  validated : Bool
  validators : List Validator
  merkleRoot : String
deriving DecidableEq

instance : Inhabited Block :=
  ⟨{ index := 0, timestamp := 0, data := "", previousHash := "",
     blockType := "", hash := "", nonce := 0, validated := false,
     validators := [], merkleRoot := "" }⟩

/-- Canonical serialization hashed by Block.calculateHash
(fmt.Sprintf of index, previous hash, UnixNano timestamp, marshalled payload,
nonce, block type and Merkle root, in that order).  The payload is carried in
`Block.data` already in its marshalled form. -/
def blockRecord (b : Block) : String :=
  natDec b.index ++ b.previousHash ++ intDec b.timestamp ++ b.data ++
    natDec b.nonce ++ b.blockType ++ b.merkleRoot

/-- Block.calculateHash. -/
def calculateHash (H : String → String) (b : Block) : String := H (blockRecord b)

/-- Block.calculateMerkleRoot: the digest of the marshalled payload. -/
def calculateMerkleRoot (H : String → String) (data : String) : String := H data

/-- blockchain.NewBlock.  A zero timestamp is replaced by the current time in
Go; callers of this model always pass the actual instant. -/
def newBlock (H : String → String) (index : Nat) (timestamp : GoTime)
    (data previousHash blockType : String) : Block :=
  let bt := if blockType = "" then "donation" else blockType
  let b : Block :=
    { index := index, timestamp := timestamp, data := data,
      previousHash := previousHash, blockType := bt, hash := "", nonce := 0,
      validated := false, validators := [],
      merkleRoot := calculateMerkleRoot H data }
  { b with hash := calculateHash H b }

/-- Iterations of the unbounded Block.MineBlock loop; `none` models the Go
loop not having terminated within `fuel` iterations. -/
def mineAux (H : String → String) (target : String) :
    Nat → Block → Option Block
  | 0, b => if strStarts b.hash target then some b else none
  | fuel + 1, b =>
    if strStarts b.hash target then some b
    else
      let b' := { b with nonce := b.nonce + 1 }
      mineAux H target fuel { b' with hash := calculateHash H b' }

/-- Block.MineBlock. -/
def mineBlock (H : String → String) (b : Block) (difficulty fuel : Nat) :
    Option Block :=
  mineAux H (goRepeat "0" difficulty) fuel b

/-- Block.AddValidator. -/
def Block.addValidator (b : Block) (validatorID signature validationType : String)
    (now : GoTime) : Block :=
  let vt := if validationType = "" then "general" else validationType
  { b with validators := b.validators ++
      [{ validatorID := validatorID, signature := signature,
         validationType := vt, timestamp := now }] }

/-- Block.Validate. -/
def Block.validate (b : Block) : Block := { b with validated := true }

/-- Block.IsValid. -/
def Block.isValid (H : String → String) (b : Block) : Bool :=
  b.hash == calculateHash H b && b.validated

/-! ### pkg/blockchain/blockchain.go -/

structure Blockchain where
  ngoID : String
  chainType : String
  chain : List Block
  difficulty : Nat
  pendingBlocks : List Block
  networkNodes : List String
deriving DecidableEq

/-- Payload of the genesis block: json.Marshal of the Go map (keys sorted). -/
def genesisData (ngoID chainType : String) : String :=
  "\x7b\"chain_type\":\"" ++ chainType ++
    "\",\"message\":\"Genesis block for " ++ chainType ++
    " chain of NGO " ++ ngoID ++ "\",\"ngo_id\":\"" ++ ngoID ++
    "\",\"type\":\"genesis\"\x7d"

/-- Blockchain.createGenesisBlock. -/
def createGenesisBlock (H : String → String) (ngoID chainType : String)
    (now : GoTime) : Block :=
  let g := newBlock H 0 now (genesisData ngoID chainType) "0" chainType
  Block.addValidator { g with validated := true }
    "system" "genesis_signature" "genesis" now

/-- blockchain.NewBlockchain. -/
def newBlockchain (H : String → String) (ngoID chainType : String)
    (difficulty : Nat) (now : GoTime) : Blockchain :=
  let d := if difficulty < 1 then 2 else difficulty
  let ct := if chainType ≠ "donation" ∧ chainType ≠ "expenditure"
    then "donation" else chainType
  { ngoID := ngoID, chainType := ct,
    chain := [createGenesisBlock H ngoID ct now],
    difficulty := d, pendingBlocks := [], networkNodes := [] }

/-- Blockchain.GetLatestBlock (`none` where Go would return nil). -/
def Blockchain.getLatest (bc : Blockchain) : Option Block := bc.chain.getLast?

/-- Blockchain.GetChainLength. -/
def Blockchain.chainLength (bc : Blockchain) : Nat := bc.chain.length

/-- Blockchain.validateBlockInternal. -/
def validateBlockInternal (H : String → String) (bc : Blockchain) (b : Block) :
    Bool :=
  match bc.chain.getLast? with
  | none => false
  | some previousBlock =>
    if b.previousHash ≠ previousBlock.hash then false
    else if b.hash ≠ calculateHash H b then false
    else strStarts b.hash (goRepeat "0" bc.difficulty)

/-- Blockchain.AddBlock.  Go first overwrites the candidate's previous hash
and index under the chain's write lock, then mines and validates it.  On
success the pair carries the mined block that was appended (Go mutates the
caller's pointer in place and the caller reads its hash and index back);
`none` covers both a failed validation and a mining loop that has not
terminated within `fuel`. -/
def addBlock (H : String → String) (bc : Blockchain) (b : Block) (fuel : Nat) :
    Blockchain × Option Block :=
  match bc.chain.getLast? with
  | none => (bc, none)
  | some latest =>
    let b1 := { b with previousHash := latest.hash, index := bc.chain.length }
    match mineBlock H b1 bc.difficulty fuel with
    | none => (bc, none)
    | some mined =>
      if validateBlockInternal H bc mined then
        ({ bc with chain := bc.chain ++ [mined] }, some mined)
      else (bc, none)

/-- Loop body of Blockchain.IsChainValid over consecutive blocks. -/
def chainLinkOk (H : String → String) : List Block → Bool
  | [] => true
  | [_] => true
  | p :: c :: rest =>
    (c.isValid H && c.previousHash == p.hash) && chainLinkOk H (c :: rest)

/-- Blockchain.IsChainValid. -/
def Blockchain.isChainValid (H : String → String) (bc : Blockchain) : Bool :=
  chainLinkOk H bc.chain

/-! ### Tamper detection: single-field mutations of an admitted block -/

/-- A mutation of a single Block field other than the validators list. -/
inductive BlockMutation where
  | mIndex (v : Nat)
  | mTimestamp (v : GoTime)
  | mData (v : String)
  | mPrevHash (v : String)
  | mBlockType (v : String)
  | mHash (v : String)
  | mNonce (v : Nat)
  | mValidated (v : Bool)
  | mMerkleRoot (v : String)
deriving DecidableEq

/-- Apply a single-field mutation to a block. -/
def applyMutation : BlockMutation → Block → Block
  | .mIndex v, b => { b with index := v }
  | .mTimestamp v, b => { b with timestamp := v }
  | .mData v, b => { b with data := v }
  | .mPrevHash v, b => { b with previousHash := v }
  | .mBlockType v, b => { b with blockType := v }
  | .mHash v, b => { b with hash := v }
  | .mNonce v, b => { b with nonce := v }
  | .mValidated v, b => { b with validated := v }
  | .mMerkleRoot v, b => { b with merkleRoot := v }

/-- Mutate block `i` of a chain in place. -/
def mutateChainAt (bc : Blockchain) (i : Nat) (m : BlockMutation) : Blockchain :=
  { bc with chain := bc.chain.set i (applyMutation m (bc.chain.getD i default)) }

theorem chainLinkOk_iff_chain (H : String → String) (l : List Block) :
    chainLinkOk H l = true ↔
      l.Chain' (fun p c => c.isValid H = true ∧ c.previousHash = p.hash) := by
  induction l with
  | nil => simp [chainLinkOk]
  | cons a t ih =>
    cases t with
    | nil => simp [chainLinkOk]
    | cons b r =>
      rw [chainLinkOk, List.chain'_cons, ← ih]
      simp only [Bool.and_eq_true, beq_iff_eq]

theorem chainLinkOk_eq_false_at (H : String → String) (l : List Block) (j : Nat)
    (h2 : j + 1 < l.length)
    (hfail : ¬ ((l.getD (j+1) default).isValid H = true ∧
        (l.getD (j+1) default).previousHash = (l.getD j default).hash)) :
    chainLinkOk H l = false := by
  cases hcl : chainLinkOk H l with
  | false => rfl
  | true =>
    exfalso
    have hch := (chainLinkOk_iff_chain H l).mp hcl
    have hget := List.chain'_iff_get.mp hch j (by omega)
    rw [List.get_eq_getElem, List.get_eq_getElem] at hget
    apply hfail
    rw [List.getD_eq_getElem l default h2, List.getD_eq_getElem l default (by omega)]
    exact hget

theorem record_ne_index (b : Block) (v : Nat) (hv : v ≠ b.index) :
    blockRecord { b with index := v } ≠ blockRecord b := by
  intro h
  apply hv
  have hd := congrArg String.data h
  simp only [blockRecord, String.data_append, List.append_assoc] at hd
  exact natDec_injective (String.ext (List.append_cancel_right hd))

theorem record_ne_prev (b : Block) (v : String) (hv : v ≠ b.previousHash) :
    blockRecord { b with previousHash := v } ≠ blockRecord b := by
  intro h
  apply hv
  have hd := congrArg String.data h
  simp only [blockRecord, String.data_append, List.append_assoc] at hd
  exact String.ext (List.append_cancel_right (List.append_cancel_left hd))

theorem record_ne_timestamp (b : Block) (v : GoTime) (hv : v ≠ b.timestamp) :
    blockRecord { b with timestamp := v } ≠ blockRecord b := by
  intro h
  apply hv
  have hd := congrArg String.data h
  simp only [blockRecord, String.data_append, List.append_assoc] at hd
  exact intDec_injective (String.ext
    (List.append_cancel_right (List.append_cancel_left (List.append_cancel_left hd))))

theorem record_ne_data (b : Block) (v : String) (hv : v ≠ b.data) :
    blockRecord { b with data := v } ≠ blockRecord b := by
  intro h
  apply hv
  have hd := congrArg String.data h
  simp only [blockRecord, String.data_append, List.append_assoc] at hd
  exact String.ext (List.append_cancel_right
    (List.append_cancel_left (List.append_cancel_left (List.append_cancel_left hd))))

theorem record_ne_nonce (b : Block) (v : Nat) (hv : v ≠ b.nonce) :
    blockRecord { b with nonce := v } ≠ blockRecord b := by
  intro h
  apply hv
  have hd := congrArg String.data h
  simp only [blockRecord, String.data_append, List.append_assoc] at hd
  exact natDec_injective (String.ext (List.append_cancel_right
    (List.append_cancel_left (List.append_cancel_left
      (List.append_cancel_left (List.append_cancel_left hd))))))

theorem record_ne_blockType (b : Block) (v : String) (hv : v ≠ b.blockType) :
    blockRecord { b with blockType := v } ≠ blockRecord b := by
  intro h
  apply hv
  have hd := congrArg String.data h
  simp only [blockRecord, String.data_append, List.append_assoc] at hd
  exact String.ext (List.append_cancel_right
    (List.append_cancel_left (List.append_cancel_left (List.append_cancel_left
      (List.append_cancel_left (List.append_cancel_left hd))))))

theorem record_ne_merkleRoot (b : Block) (v : String) (hv : v ≠ b.merkleRoot) :
    blockRecord { b with merkleRoot := v } ≠ blockRecord b := by
  intro h
  apply hv
  have hd := congrArg String.data h
  simp only [blockRecord, String.data_append, List.append_assoc] at hd
  exact String.ext
    (List.append_cancel_left (List.append_cancel_left (List.append_cancel_left
      (List.append_cancel_left (List.append_cancel_left (List.append_cancel_left hd))))))

/-- Under a collision-free digest, mutating any single field other than the
validators list of a non-genesis block of a currently valid chain falsifies
IsChainValid. -/
theorem isChainValid_false_of_mutation (H : String → String)
    (hinj : Function.Injective H) (bc : Blockchain) (i : Nat) (m : BlockMutation)
    (hvalid : bc.isChainValid H = true) (h1 : 1 ≤ i) (h2 : i < bc.chain.length)
    (hch : applyMutation m (bc.chain.getD i default) ≠ bc.chain.getD i default) :
    (mutateChainAt bc i m).isChainValid H = false := by
  obtain ⟨j, rfl⟩ : ∃ j, i = j + 1 := ⟨i - 1, by omega⟩
  have hR := List.chain'_iff_get.mp
    ((chainLinkOk_iff_chain H bc.chain).mp hvalid) j (by omega)
  have egetd : bc.chain.getD (j+1) default = bc.chain.get ⟨j+1, h2⟩ :=
    List.getD_eq_getElem bc.chain default h2
  rw [egetd] at hch
  have hbvalid : (bc.chain.get ⟨j+1, h2⟩).isValid H = true := hR.1
  have hblink : (bc.chain.get ⟨j+1, h2⟩).previousHash = (bc.chain.get ⟨j, by omega⟩).hash := hR.2
  rw [Block.isValid, Bool.and_eq_true, beq_iff_eq] at hbvalid
  obtain ⟨hbhash, hbval⟩ := hbvalid
  show chainLinkOk H ((mutateChainAt bc (j+1) m).chain) = false
  have hlen : (mutateChainAt bc (j+1) m).chain.length = bc.chain.length := by
    simp [mutateChainAt]
  apply chainLinkOk_eq_false_at H _ j (by omega)
  have hset1 : (mutateChainAt bc (j+1) m).chain.getD (j+1) default =
      applyMutation m (bc.chain.get ⟨j+1, h2⟩) := by
    simp only [mutateChainAt, egetd]
    rw [List.getD_eq_getElem _ default (by simpa using h2)]
    exact List.getElem_set_self (by simpa using h2)
  have hset2 : (mutateChainAt bc (j+1) m).chain.getD j default =
      bc.chain.get ⟨j, by omega⟩ := by
    simp only [mutateChainAt]
    rw [List.getD_eq_getElem _ default (by simpa using (by omega : j < bc.chain.length))]
    exact List.getElem_set_ne (by omega) _
  rw [hset1, hset2]
  set b := bc.chain.get ⟨j+1, h2⟩ with hb
  cases m with
  | mValidated v =>
    have hv : v ≠ b.validated := fun hvv => hch (by rw [hvv]; exact rfl)
    rintro ⟨hval, -⟩
    rw [Block.isValid, Bool.and_eq_true] at hval
    have h2v : v = true := hval.2
    exact hv (h2v.trans hbval.symm)
  | mHash v =>
    have hv : v ≠ b.hash := fun hvv => hch (by rw [hvv]; exact rfl)
    rintro ⟨hval, -⟩
    rw [Block.isValid, Bool.and_eq_true, beq_iff_eq] at hval
    have h1v : v = calculateHash H b := hval.1
    exact hv (h1v.trans hbhash.symm)
  | mPrevHash v =>
    have hv : v ≠ b.previousHash := fun hvv => hch (by rw [hvv]; exact rfl)
    rintro ⟨-, hlink⟩
    have h1v : v = (bc.chain.get ⟨j, by omega⟩).hash := hlink
    exact hv (h1v.trans hblink.symm)
  | mIndex v =>
    have hv : v ≠ b.index := fun hvv => hch (by rw [hvv]; exact rfl)
    rintro ⟨hval, -⟩
    rw [Block.isValid, Bool.and_eq_true, beq_iff_eq] at hval
    have h1v : b.hash = H (blockRecord (applyMutation (.mIndex v) b)) := hval.1
    exact record_ne_index b v hv (hinj (h1v.symm.trans hbhash))
  | mTimestamp v =>
    have hv : v ≠ b.timestamp := fun hvv => hch (by rw [hvv]; exact rfl)
    rintro ⟨hval, -⟩
    rw [Block.isValid, Bool.and_eq_true, beq_iff_eq] at hval
    have h1v : b.hash = H (blockRecord (applyMutation (.mTimestamp v) b)) := hval.1
    exact record_ne_timestamp b v hv (hinj (h1v.symm.trans hbhash))
  | mData v =>
    have hv : v ≠ b.data := fun hvv => hch (by rw [hvv]; exact rfl)
    rintro ⟨hval, -⟩
    rw [Block.isValid, Bool.and_eq_true, beq_iff_eq] at hval
    have h1v : b.hash = H (blockRecord (applyMutation (.mData v) b)) := hval.1
    exact record_ne_data b v hv (hinj (h1v.symm.trans hbhash))
  | mNonce v =>
    have hv : v ≠ b.nonce := fun hvv => hch (by rw [hvv]; exact rfl)
    rintro ⟨hval, -⟩
    rw [Block.isValid, Bool.and_eq_true, beq_iff_eq] at hval
    have h1v : b.hash = H (blockRecord (applyMutation (.mNonce v) b)) := hval.1
    exact record_ne_nonce b v hv (hinj (h1v.symm.trans hbhash))
  | mBlockType v =>
    have hv : v ≠ b.blockType := fun hvv => hch (by rw [hvv]; exact rfl)
    rintro ⟨hval, -⟩
    rw [Block.isValid, Bool.and_eq_true, beq_iff_eq] at hval
    have h1v : b.hash = H (blockRecord (applyMutation (.mBlockType v) b)) := hval.1
    exact record_ne_blockType b v hv (hinj (h1v.symm.trans hbhash))
  | mMerkleRoot v =>
    have hv : v ≠ b.merkleRoot := fun hvv => hch (by rw [hvv]; exact rfl)
    rintro ⟨hval, -⟩
    rw [Block.isValid, Bool.and_eq_true, beq_iff_eq] at hval
    have h1v : b.hash = H (blockRecord (applyMutation (.mMerkleRoot v) b)) := hval.1
    exact record_ne_merkleRoot b v hv (hinj (h1v.symm.trans hbhash))

/-! ### Concrete digest functions used by closed scenarios -/

/-- A digest whose values depend only on the parity of the input length: on
the scenario below it behaves like a generic hash (the stale pre-mining hash
misses the difficulty prefix, re-mining reaches a nonce whose record hashes
with the required prefix). -/
def evenH : String → String :=
  fun s => if s.length % 2 == 0 then "00" ++ s else "ff" ++ s

/-- A constant digest: 64 lowercase hex characters starting with two zeros,
so proof-of-work at difficulty two is satisfied immediately. -/
def hex00 : String → String :=
  fun _ => "00aaaaaaaaaaaaaaaaaaaaaaaaaaaaaaaaaaaaaaaaaaaaaaaaaaaaaaaaaaaaaa"

/-- Broken previous-hash linkage at any position falsifies IsChainValid. -/
theorem isChainValid_false_of_link_break (H : String → String)
    (bc : Blockchain) (i : Nat) (h1 : 1 ≤ i) (h2 : i < bc.chain.length)
    (hbad : (bc.chain.getD i default).previousHash ≠
      (bc.chain.getD (i-1) default).hash) :
    bc.isChainValid H = false := by
  obtain ⟨j, rfl⟩ : ∃ j, i = j + 1 := ⟨i - 1, by omega⟩
  apply chainLinkOk_eq_false_at H _ j h2
  rintro ⟨-, hlink⟩
  exact hbad (by simpa using hlink)

/-! ### Claim C5: racing AddBlock calls -/

def c5bc0 : Blockchain := newBlockchain evenH "NGO001" "donation" 2 0

def c5gh : String := ((c5bc0.getLatest).map Block.hash).getD ""

def c5candA : Block := newBlock evenH 1 10 "A" c5gh "donation"

def c5candB : Block := newBlock evenH 1 5 "B" c5gh "donation"

def c5step1 : Blockchain × Option Block := addBlock evenH c5bc0 c5candA 100

def c5step2 : Blockchain × Option Block := addBlock evenH c5step1.1 c5candB 100

/-- C5 (code bug): two AddBlock calls racing to append at the same index
(both candidates are built at index 1 against the same tail hash), serialized
by the chain's write lock, BOTH succeed.  AddBlock overwrites each
candidate's previous hash and index with the current tail inside the lock
before mining, so the staleness check of validateBlockInternal can never
fire; the chain grows by two — against the claim (and TestConcurrentMining)
that exactly one call succeeds and the chain length grows by exactly one. -/
theorem claim_c5_both_appends_succeed :
    c5candA.index = 1 ∧ c5candB.index = 1 ∧
    c5candA.previousHash = c5gh ∧ c5candB.previousHash = c5gh ∧
    c5step1.2.isSome = true ∧ c5step2.2.isSome = true ∧
    c5step2.1.chain.length = c5bc0.chain.length + 2 := by
  decide

/-! ### Claim C6: tamper detection -/

def c6cBc : Blockchain := newBlockchain hex00 "NGO001" "donation" 2 0

def c6cCand : Block :=
  newBlock hex00 1 7 "D" (((c6cBc.getLatest).map Block.hash).getD "") "donation"

def c6cStep : Blockchain × Option Block := addBlock hex00 c6cBc c6cCand 100

/-- C6 counterexample: a chain whose non-genesis block was admitted through
AddBlock (AddBlock never marks a block validated), after the single-field
mutation that flips the admitted block's validated flag — a field other than
the validators list — has IsChainValid return TRUE, not false as the claim
demands. -/
theorem claim_c6_counterexample :
    c6cStep.2.isSome = true ∧
    applyMutation (.mValidated true) (c6cStep.1.chain.getD 1 default) ≠
      c6cStep.1.chain.getD 1 default ∧
    (mutateChainAt c6cStep.1 1 (.mValidated true)).isChainValid hex00 = true := by
  decide

/-- C6 (amended): for every chain that IsChainValid currently accepts (in the
admission pipeline every appended block has been marked validated, so this
covers every chain the platform builds), mutating any single field other than
the validators list of any non-genesis block makes IsChainValid return false,
under a collision-free digest; and independently, whenever any non-genesis
block's prev_hash differs from its predecessor's hash, IsChainValid returns
false. -/
theorem claim_c6_amended :
    (∀ (H : String → String), Function.Injective H →
      ∀ (bc : Blockchain) (i : Nat) (m : BlockMutation),
        bc.isChainValid H = true → 1 ≤ i → i < bc.chain.length →
        applyMutation m (bc.chain.getD i default) ≠ bc.chain.getD i default →
        (mutateChainAt bc i m).isChainValid H = false) ∧
    (∀ (H : String → String) (bc : Blockchain) (i : Nat),
      1 ≤ i → i < bc.chain.length →
      (bc.chain.getD i default).previousHash ≠
        (bc.chain.getD (i-1) default).hash →
      bc.isChainValid H = false) :=
  ⟨fun H hinj bc i m hv h1 h2 hch =>
      isChainValid_false_of_mutation H hinj bc i m hv h1 h2 hch,
   fun H bc i h1 h2 hbad =>
      isChainValid_false_of_link_break H bc i h1 h2 hbad⟩

def c6wGen : Block := createGenesisBlock (fun s => s) "NGOW" "donation" 0

def c6wChain : Blockchain :=
  { ngoID := "NGOW", chainType := "donation",
    chain := [c6wGen, Block.validate (newBlock (fun s => s) 1 7 "D" c6wGen.hash "donation")],
    difficulty := 2, pendingBlocks := [], networkNodes := [] }

def c6lChain : Blockchain :=
  { ngoID := "NGOW", chainType := "donation",
    chain := [c6wGen,
      Block.validate (newBlock (fun s => s) 1 7 "D" "not-the-genesis-hash" "donation")],
    difficulty := 2, pendingBlocks := [], networkNodes := [] }

/-- **C6** witness: under the identity digest, a two-block chain that
IsChainValid accepts loses validity when the second block's data is
overwritten, and a chain with broken linkage is invalid. -/
theorem claim_c6_witness :
    (Function.Injective (fun s : String => s) ∧
      c6wChain.isChainValid (fun s => s) = true ∧
      (1:Nat) ≤ 1 ∧ 1 < c6wChain.chain.length ∧
      applyMutation (.mData "X") (c6wChain.chain.getD 1 default) ≠
        c6wChain.chain.getD 1 default ∧
      (mutateChainAt c6wChain 1 (.mData "X")).isChainValid (fun s => s) = false) ∧
    ((c6lChain.chain.getD 1 default).previousHash ≠
        (c6lChain.chain.getD 0 default).hash ∧
      c6lChain.isChainValid (fun s => s) = false) :=
  ⟨⟨fun a b h => h, by decide, by decide, by decide, by decide,
    claim_c6_amended.1 (fun s => s) (fun a b h => h) c6wChain 1 (.mData "X")
      (by decide) (by decide) (by decide) (by decide)⟩,
   ⟨by decide,
    claim_c6_amended.2 (fun s => s) c6lChain 1 (by decide) (by decide) (by decide)⟩⟩

/-! ### pkg/crypto/zkproof.go -/

structure ZKProof where
  commitment : String
  nullifier : String
  proof : String
  timestamp : GoTime
deriving DecidableEq

/-- Hex characters of the regular expression class [a-f0-9]. -/
def isHexChar (c : Char) : Bool := c.isDigit || ('a' ≤ c && c ≤ 'f')

/-- Match of the regular expression of 64 lowercase hex characters. -/
def isHex64 (s : String) : Bool := s.length == 64 && s.data.all isHexChar

/-- Rendering of a float64 by fmt's %.2f.  Only fed to the digest function,
so the rounding of the textual form is immaterial; the injective rational
printer stands in for it. -/
def fmtAmount (q : ℚ) : String := ratDec q

/-- crypto.GenerateProof.  `now` is the instant at which the proof component
itself is produced (Go reads the clock again there). -/
def generateProof (H : String → String) (donorID : String) (amount : ℚ)
    (timestamp now : GoTime) : ZKProof :=
  let commitment := H (donorID ++ fmtAmount amount ++ intDec timestamp)
  let nullifier := H (commitment ++ donorID)
  let proof := H (commitment ++ nullifier ++ intDec now)
  { commitment := commitment, nullifier := nullifier, proof := proof,
    timestamp := timestamp }

/-- crypto.VerifyProof (`none` models a nil *ZKProof). -/
def verifyProof (p : Option ZKProof) (_amount : ℚ) (timestamp now : GoTime) :
    Bool :=
  match p with
  | none => false
  | some zk =>
    if zk.commitment = "" ∨ zk.nullifier = "" ∨ zk.proof = "" then false
    else if |hoursBetween now timestamp| > 24 then false
    else isHex64 zk.commitment && isHex64 zk.nullifier && isHex64 zk.proof

/-! ### pkg/transactions/donation.go -/

structure TaxBenefit where
  taxSection : String
  deductibleAmount : ℚ
  taxSaving : ℚ
  note : String
deriving DecidableEq

structure EBill where
  billID : String
  transactionID : String
  amount : ℚ
  currency : String
  timestamp : GoTime
  ngoID : String
  donorHash : String
  paymentMethod : String
  taxBenefit : TaxBenefit
  receiptNumber : String
  signature : String
  qrCode : String
  downloadURL : String
  validityPeriod : String
deriving DecidableEq

structure DonationTransaction where
  transactionID : String
  donorID : String
  ngoID : String
  amount : ℚ
  paymentMethod : String
  timestamp : GoTime
  status : String
  donorKYCHash : String
  zkProof : Option ZKProof
  eBill : Option EBill
  completedAt : Option GoTime
  failedAt : Option GoTime
  failureReason : String
deriving DecidableEq

/-- The random identifiers drawn by NewDonationTransaction: the 16-byte
transaction id and the 12-byte bill id, both already rendered as hex (the
receipt number reuses the first ten hex characters of the bill id, as the
source slices the same random bytes). -/
structure DonationRnd where
  txId : String
  billId : String
deriving DecidableEq

/-- DonationTransaction.calculateTaxBenefit. -/
def calculateTaxBenefit (amount : ℚ) : TaxBenefit :=
  let maxDeduction := min amount 10000
  { taxSection := "80G", deductibleAmount := maxDeduction,
    taxSaving := maxDeduction * (3/10),
    note := "Consult tax advisor for accurate calculations" }

/-- JSON rendering of a TaxBenefit struct (field tags in declaration order). -/
def serializeTaxBenefit (tb : TaxBenefit) : String :=
  "\x7b\"section\":\"" ++ tb.taxSection ++ "\",\"deductible_amount\":" ++
    ratDec tb.deductibleAmount ++ ",\"tax_saving\":" ++ ratDec tb.taxSaving ++
    ",\"note\":\"" ++ tb.note ++ "\"\x7d"

/-- Serialization of the map hashed by generateBillSignature: json.Marshal of
a Go map renders the keys in sorted order; the signature, QR code and
download URL are excluded, and the timestamp enters as Unix seconds. -/
def serializeSignedEBill (e : EBill) : String :=
  "\x7b\"amount\":" ++ ratDec e.amount ++
    ",\"bill_id\":\"" ++ e.billID ++
    "\",\"currency\":\"" ++ e.currency ++
    "\",\"donor_hash\":\"" ++ e.donorHash ++
    "\",\"ngo_id\":\"" ++ e.ngoID ++
    "\",\"payment_method\":\"" ++ e.paymentMethod ++
    "\",\"receipt_number\":\"" ++ e.receiptNumber ++
    "\",\"tax_benefit\":" ++ serializeTaxBenefit e.taxBenefit ++
    ",\"timestamp\":" ++ intDec (goUnix e.timestamp) ++
    ",\"transaction_id\":\"" ++ e.transactionID ++
    "\",\"validity_period\":\"" ++ e.validityPeriod ++ "\"\x7d"

/-- DonationTransaction.generateBillSignature. -/
def generateBillSignature (H : String → String) (e : EBill) : String :=
  H (serializeSignedEBill e)

/-- JSON of the QR payload map (sorted keys). -/
def serializeQRData (e : EBill) : String :=
  "\x7b\"amount\":" ++ ratDec e.amount ++ ",\"bill_id\":\"" ++ e.billID ++
    "\",\"ngo_id\":\"" ++ e.ngoID ++ "\",\"timestamp\":" ++
    intDec (goUnix e.timestamp) ++ "\x7d"

/-- Base64 step of the QR code.  The encoding is a bijection the claims never
inspect, so the serialized payload itself stands in for its base64 form. -/
def goBase64 (s : String) : String := s

/-- DonationTransaction.generateQRCode. -/
def generateQRCode (e : EBill) : String := "QR:" ++ goBase64 (serializeQRData e)

/-- DonationTransaction.generateEBill. -/
def generateEBill (H : String → String) (dt : DonationTransaction)
    (rnd : DonationRnd) : EBill :=
  let base : EBill :=
    { billID := rnd.billId, transactionID := dt.transactionID,
      amount := dt.amount, currency := "INR", timestamp := dt.timestamp,
      ngoID := dt.ngoID, donorHash := H dt.donorID,
      paymentMethod := dt.paymentMethod,
      taxBenefit := calculateTaxBenefit dt.amount,
      receiptNumber := "RCP-" ++ intDec (goUnix dt.timestamp) ++ "-" ++
        goToUpper (strTake rnd.billId 10),
      signature := "", qrCode := "",
      downloadURL := "https://receipts.ngo/" ++ rnd.billId,
      validityPeriod := "7 years" }
  let withSig := { base with signature := generateBillSignature H base }
  { withSig with qrCode := generateQRCode withSig }

/-- transactions.NewDonationTransaction. -/
def newDonationTransaction (H : String → String) (now : GoTime)
    (rnd : DonationRnd) (donorID ngoID : String) (amount : ℚ)
    (paymentMethod donorKYCHash : String) : DonationTransaction :=
  let tx0 : DonationTransaction :=
    { transactionID := rnd.txId, donorID := donorID, ngoID := ngoID,
      amount := amount, paymentMethod := paymentMethod, timestamp := now,
      status := "pending", donorKYCHash := donorKYCHash, zkProof := none,
      eBill := none, completedAt := none, failedAt := none, failureReason := "" }
  let tx1 := { tx0 with zkProof := some (generateProof H donorID amount now now) }
  { tx1 with eBill := some (generateEBill H tx1 rnd) }

/-- DonationTransaction.ValidateEBill. -/
def validateEBill (H : String → String) (dt : DonationTransaction) : Bool :=
  match dt.eBill with
  | none => false
  | some e => e.signature == generateBillSignature H e

/-- DonationTransaction.MarkComplete. -/
def markComplete (now : GoTime) (dt : DonationTransaction) : DonationTransaction :=
  { dt with status := "completed", completedAt := some now }

/-- DonationTransaction.MarkFailed. -/
def markFailed (now : GoTime) (reason : String) (dt : DonationTransaction) :
    DonationTransaction :=
  { dt with status := "failed", failedAt := some now, failureReason := reason }

/-! ### pkg/transactions/expenditure.go -/

structure InvoiceDetails where
  invoiceNumber : String
  gstin : String
  vendorName : String
  vendorGSTIN : String
  invoiceDate : GoTime
  documents : List String
  bankTransactionID : String
  chequeNumber : String
deriving DecidableEq

structure Attachment where
  filename : String
  hash : String
  ftype : String
  uploadedAt : GoTime
deriving DecidableEq

structure AuditorValidation where
  auditorID : String
  isValid : Bool
  remarks : String
  auditScore : ℚ
  timestamp : GoTime
  signature : String
deriving DecidableEq

structure ExpenditureTransaction where
  transactionID : String
  ngoID : String
  amount : ℚ
  category : String
  description : String
  timestamp : GoTime
  invoiceDetails : InvoiceDetails
  attachments : List Attachment
  status : String
  auditorValidation : Option AuditorValidation
  complianceScore : ℚ
deriving DecidableEq

/-- ExpenditureTransaction.VerifyGSTIN: the regular expression of a GSTIN:
two digits, five uppercase letters, four digits, one uppercase letter, one
character of [1-9A-Z], the letter Z, one character of [0-9A-Z]. -/
def verifyGSTIN (gstin : String) : Bool :=
  if gstin = "" then false
  else
    match gstin.data with
    | [a, b, c, d, e, f, g, h, i, j, k, l, m, z, o] =>
      a.isDigit && b.isDigit &&
      c.isUpper && d.isUpper && e.isUpper && f.isUpper && g.isUpper &&
      h.isDigit && i.isDigit && j.isDigit && k.isDigit &&
      l.isUpper &&
      (('1' ≤ m && m ≤ '9') || m.isUpper) &&
      (z == 'Z') &&
      (o.isDigit || o.isUpper)
    | _ => false

/-- ExpenditureTransaction.calculateComplianceScore (`now` is the instant at
which Go reads the clock for the invoice-recency test). -/
def calculateComplianceScore (now : GoTime) (et : ExpenditureTransaction) : ℚ :=
  let s1 : ℚ := if et.invoiceDetails.invoiceNumber ≠ "" then 20 else 0
  let s2 : ℚ := if verifyGSTIN et.invoiceDetails.gstin then 20 else 0
  let s3 : ℚ :=
    if et.invoiceDetails.vendorName ≠ "" ∧ et.invoiceDetails.vendorGSTIN ≠ ""
    then 15 else 0
  let s4 : ℚ :=
    if et.invoiceDetails.bankTransactionID ≠ "" ∨ et.invoiceDetails.chequeNumber ≠ ""
    then 15 else 0
  let s5 : ℚ := if et.invoiceDetails.documents.length > 0 then 15 else 0
  let s6 : ℚ := if et.attachments.length > 0 then 10 else 0
  let s7 : ℚ :=
    if hoursBetween now et.invoiceDetails.invoiceDate / 24 ≤ 90 then 5 else 0
  min (s1 + s2 + s3 + s4 + s5 + s6 + s7) 100

/-- transactions.NewExpenditureTransaction (`txId` is the random 16-byte hex
identifier Go draws; `none` attachments model the nil slice). -/
def newExpenditureTransaction (txId : String) (now : GoTime) (ngoID : String)
    (amount : ℚ) (category description : String)
    (invoiceDetails : InvoiceDetails) (attachments : Option (List Attachment)) :
    ExpenditureTransaction :=
  let tx : ExpenditureTransaction :=
    { transactionID := txId, ngoID := ngoID, amount := amount,
      category := category, description := description, timestamp := now,
      invoiceDetails := invoiceDetails, attachments := attachments.getD [],
      status := "pending_validation", auditorValidation := none,
      complianceScore := 0 }
  { tx with complianceScore := calculateComplianceScore now tx }

/-- ExpenditureTransaction.ValidateByAuditor. -/
def validateByAuditor (H : String → String) (now : GoTime)
    (et : ExpenditureTransaction) (auditorID : String) (isValid : Bool)
    (remarks : String) (auditScore : Option ℚ) : ExpenditureTransaction :=
  let finalAuditScore := auditScore.getD et.complianceScore
  let signature := H (auditorID ++ et.transactionID ++
    (if isValid then "true" else "false") ++ intDec now)
  let validation : AuditorValidation :=
    { auditorID := auditorID, isValid := isValid, remarks := remarks,
      auditScore := finalAuditScore, timestamp := now, signature := signature }
  { et with
    auditorValidation := some validation,
    status := if isValid then "validated" else "rejected" }

/-! ### pkg/entities/auditor.go -/

structure AuditResult where
  auditID : String
  expenditureID : String
  auditorID : String
  timestamp : GoTime
  complianceScore : ℚ
  findings : List String
  recommendation : String
  auditNotes : String
  signature : String
deriving DecidableEq

structure Auditor where
  auditorID : String
  name : String
  credentials : String
  specializations : List String
  verified : Bool
  auditHistory : List AuditResult
  rating : ℚ
  createdAt : GoTime
  publicKey : String
  verificationAuthority : String
  verificationDate : Option GoTime
deriving DecidableEq

/-- entities.NewAuditor. -/
def newAuditor (H : String → String) (now : GoTime)
    (auditorID name credentials : String)
    (specializations : Option (List String)) : Auditor :=
  { auditorID := auditorID, name := name, credentials := credentials,
    specializations := specializations.getD [], verified := false,
    auditHistory := [], rating := 5, createdAt := now,
    publicKey := H (auditorID ++ name), verificationAuthority := "",
    verificationDate := none }

/-- Auditor.VerifyCredentials. -/
def verifyCredentials (now : GoTime) (a : Auditor)
    (verificationAuthority : String) : Auditor :=
  { a with
    verified := true,
    verificationAuthority := verificationAuthority,
    verificationDate := some now }

/-- Rendering of a float64 by fmt's %.1f and %.0f inside findings text;
modelled by the injective rational printer (the text is never parsed). -/
def fmtF (q : ℚ) : String := ratDec q

/-- Auditor.generateFindings. -/
def generateFindings (now : GoTime) (et : ExpenditureTransaction) : List String :=
  (if ¬ verifyGSTIN et.invoiceDetails.gstin then ["Invalid GSTIN format"] else []) ++
  (if et.invoiceDetails.bankTransactionID = "" ∧ et.invoiceDetails.chequeNumber = ""
    then ["Missing payment proof"] else []) ++
  (if et.invoiceDetails.documents.length = 0
    then ["No supporting documents provided"] else []) ++
  (if et.complianceScore < 80
    then ["Low compliance score: " ++ fmtF et.complianceScore ++ "%"] else []) ++
  (if et.invoiceDetails.vendorGSTIN ≠ "" ∧ ¬ verifyGSTIN et.invoiceDetails.vendorGSTIN
    then ["Invalid vendor GSTIN format"] else []) ++
  (if hoursBetween now et.invoiceDetails.invoiceDate / 24 > 90
    then ["Invoice is older than 90 days (" ++
      fmtF (hoursBetween now et.invoiceDetails.invoiceDate / 24) ++ " days)"] else []) ++
  (if et.invoiceDetails.invoiceNumber = "" then ["Missing invoice number"] else []) ++
  (if et.invoiceDetails.vendorName = "" then ["Missing vendor name"] else [])

/-- Auditor.generateRecommendation. -/
def generateRecommendation (et : ExpenditureTransaction) : String :=
  if et.complianceScore ≥ 90 then "Approve - Excellent compliance"
  else if et.complianceScore ≥ 80 then "Approve - Good compliance with minor observations"
  else if et.complianceScore ≥ 70 then "Approve with conditions - Address noted observations"
  else if et.complianceScore ≥ 60 then "Conditional approval - Requires additional documentation"
  else if et.complianceScore ≥ 50 then "Review required - Significant compliance gaps"
  else "Reject - Insufficient compliance and documentation"

/-- Auditor.AuditExpenditure (the audit id slices the first eight characters
of the auditor id; Go panics on shorter ids, which the model does not
reproduce — every id used below is at least eight characters). -/
def auditExpenditure (H : String → String) (now : GoTime) (a : Auditor)
    (et : ExpenditureTransaction) (auditNotes : String) : Auditor × AuditResult :=
  let auditID := "AUD-" ++ intDec (goUnix now) ++ "-" ++ strTake a.auditorID 8
  let result : AuditResult :=
    { auditID := auditID, expenditureID := et.transactionID,
      auditorID := a.auditorID, timestamp := now,
      complianceScore := et.complianceScore,
      findings := generateFindings now et,
      recommendation := generateRecommendation et,
      auditNotes := auditNotes,
      signature := H (auditID ++ et.transactionID ++ a.auditorID) }
  ({ a with auditHistory := a.auditHistory ++ [result] }, result)

/-! ### pkg/entities/donor.go -/

structure DonationRecord where
  transactionID : String
  ngoID : String
  amount : ℚ
  timestamp : GoTime
  eBill : Option EBill
  zkProof : Option ZKProof
  taxBenefit : TaxBenefit
deriving DecidableEq

structure DonationLimit where
  canDonate : Bool
  currentYearTotal : ℚ
  limit : ℚ
  remainingLimit : ℚ
deriving DecidableEq

structure Donor where
  donorID : String
  kycVerified : Bool
  kycDocumentHash : String
  verificationLevel : String
  donationHistory : List DonationRecord
  totalDonated : ℚ
  preferredNGOs : List String
  createdAt : GoTime
  annualDonationLimit : ℚ
deriving DecidableEq

/-- entities.NewDonor (`documents` is the serialized form of the documents
entry of the KYC map, when present; `annualLimit` the annual_limit entry).
The yearly tax-benefit roll-up, unused by any claim, is not modelled. -/
def newDonor (H : String → String) (now : GoTime) (donorID : String)
    (documents : Option String) (annualLimit : Option ℚ) : Donor :=
  { donorID := donorID, kycVerified := false,
    kycDocumentHash := (documents.map H).getD "",
    verificationLevel := "",
    donationHistory := [], totalDonated := 0, preferredNGOs := [],
    createdAt := now, annualDonationLimit := annualLimit.getD 1000000 }

/-- Donor.VerifyKYC. -/
def donorVerifyKYC (d : Donor) (verificationLevel : String) : Donor :=
  let lvl := if verificationLevel = "" then "basic" else verificationLevel
  { d with
    kycVerified := true,
    verificationLevel := lvl,
    annualDonationLimit :=
      if lvl = "premium" then 5000000 else d.annualDonationLimit }

/-- Donor.CheckDonationLimit. -/
def checkDonationLimit (now : GoTime) (d : Donor) (amount : ℚ) : DonationLimit :=
  let yearlyTotal := (d.donationHistory.filter
    (fun r => goYear r.timestamp == goYear now)).foldl (fun s r => s + r.amount) 0
  { canDonate := decide (yearlyTotal + amount ≤ d.annualDonationLimit),
    currentYearTotal := yearlyTotal, limit := d.annualDonationLimit,
    remainingLimit := d.annualDonationLimit - yearlyTotal }

/-- Donor.AddDonation. -/
def addDonation (d : Donor) (donation : DonationTransaction) : Donor :=
  let record : DonationRecord :=
    { transactionID := donation.transactionID, ngoID := donation.ngoID,
      amount := donation.amount, timestamp := donation.timestamp,
      eBill := donation.eBill, zkProof := donation.zkProof,
      taxBenefit := ((donation.eBill.map EBill.taxBenefit)).getD
        (calculateTaxBenefit donation.amount) }
  { d with
    donationHistory := d.donationHistory ++ [record],
    totalDonated := d.totalDonated + donation.amount }

/-! ### pkg/entities/ngo.go -/

structure KYCData where
  verified : Bool
  documentsHash : String
  verificationDate : Option GoTime
  verificationAuthority : String
deriving DecidableEq

structure Certificate where
  ctype : String
  number : String
  validUntil : String
deriving DecidableEq

structure ProcessResult where
  success : Bool
  blockHash : String
  transactionID : String
  blockIndex : Nat
  eBill : Option EBill
deriving DecidableEq

/-- The NGO entity.  The embedded multi-signature wallet is not modelled: the
donation and expenditure paths never route through it and no claim touches
it. -/
structure NGO where
  ngoID : String
  name : String
  registrationNumber : String
  category : String
  rating : ℚ
  kycData : KYCData
  donationChain : Blockchain
  expenditureChain : Blockchain
  totalDonationsReceived : ℚ
  totalExpenditureReported : ℚ
  transparencyScore : Int
  createdAt : GoTime
  lastAuditDate : Option GoTime
  certificates : List Certificate
deriving DecidableEq

/-- entities.NewNGO (`kycDocuments` is the serialized documents entry of the
KYC map, when present). -/
def newNGO (H : String → String) (now : GoTime)
    (ngoID name registrationNumber category : String)
    (kycDocuments : Option String) : NGO :=
  { ngoID := ngoID, name := name, registrationNumber := registrationNumber,
    category := category, rating := 5,
    kycData :=
      { verified := false, documentsHash := (kycDocuments.map H).getD "",
        verificationDate := none, verificationAuthority := "" },
    donationChain := newBlockchain H ngoID "donation" 2 now,
    expenditureChain := newBlockchain H ngoID "expenditure" 2 now,
    totalDonationsReceived := 0, totalExpenditureReported := 0,
    transparencyScore := 100, createdAt := now, lastAuditDate := none,
    certificates := [] }

/-- NGO.VerifyKYC. -/
def ngoVerifyKYC (now : GoTime) (ngo : NGO) (authorityID : String)
    (certificates : List Certificate) : NGO :=
  { ngo with
    kycData :=
      { verified := true, documentsHash := ngo.kycData.documentsHash,
        verificationDate := some now, verificationAuthority := authorityID },
    certificates := certificates }

/-- Hash of the most recent block of a chain (Go dereferences the pointer
returned by GetLatestBlock; the chain always carries its genesis block). -/
def latestHash (bc : Blockchain) : String := (bc.getLatest.map Block.hash).getD ""

/-- JSON rendering of a ZKProof struct (field tags in declaration order; the
timestamp instant stands in for its RFC3339 text). -/
def serializeZKProof (zk : ZKProof) : String :=
  "\x7b\"commitment\":\"" ++ zk.commitment ++ "\",\"nullifier\":\"" ++
    zk.nullifier ++ "\",\"proof\":\"" ++ zk.proof ++ "\",\"timestamp\":" ++
    intDec zk.timestamp ++ "\x7d"

/-- JSON rendering of a full EBill struct (field tags in declaration order). -/
def serializeEBillFull (e : EBill) : String :=
  "\x7b\"bill_id\":\"" ++ e.billID ++
    "\",\"transaction_id\":\"" ++ e.transactionID ++
    "\",\"amount\":" ++ ratDec e.amount ++
    ",\"currency\":\"" ++ e.currency ++
    "\",\"timestamp\":" ++ intDec e.timestamp ++
    ",\"ngo_id\":\"" ++ e.ngoID ++
    "\",\"donor_hash\":\"" ++ e.donorHash ++
    "\",\"payment_method\":\"" ++ e.paymentMethod ++
    "\",\"tax_benefit\":" ++ serializeTaxBenefit e.taxBenefit ++
    ",\"receipt_number\":\"" ++ e.receiptNumber ++
    "\",\"signature\":\"" ++ e.signature ++
    "\",\"qr_code\":\"" ++ e.qrCode ++
    "\",\"download_url\":\"" ++ e.downloadURL ++
    "\",\"validity_period\":\"" ++ e.validityPeriod ++ "\"\x7d"

/-- The payload record of a donation block, before serialization. -/
structure DonationBlockData where
  transactionID : String
  donorHash : String
  amount : ℚ
  zkProof : Option ZKProof
  eBill : Option EBill
  timestamp : GoTime
  paymentMethod : String
deriving DecidableEq

/-- json.Marshal of the donation block payload map (keys sorted). -/
def serializeDonationBlockData (bd : DonationBlockData) : String :=
  "\x7b\"amount\":" ++ ratDec bd.amount ++
    ",\"currency\":\"INR\",\"donor_hash\":\"" ++ bd.donorHash ++
    "\",\"e_bill\":" ++
    (match bd.eBill with
     | some e => serializeEBillFull e
     | none => "null") ++
    ",\"payment_method\":\"" ++ bd.paymentMethod ++
    "\",\"timestamp\":" ++ intDec bd.timestamp ++
    ",\"transaction_id\":\"" ++ bd.transactionID ++
    "\",\"type\":\"donation\",\"zk_proof\":" ++
    (match bd.zkProof with
     | some zk => serializeZKProof zk
     | none => "null") ++ "\x7d"

/-- The payload record NGO.ProcessDonation builds. -/
def donationBlockData (H : String → String) (donation : DonationTransaction) :
    DonationBlockData :=
  { transactionID := donation.transactionID,
    donorHash := H donation.donorID, amount := donation.amount,
    zkProof := donation.zkProof, eBill := donation.eBill,
    timestamp := donation.timestamp, paymentMethod := donation.paymentMethod }

/-- The block NGO.ProcessDonation constructs, validates and decorates with the
e-bill and zero-knowledge validators before handing it to AddBlock. -/
def donationBlock (H : String → String) (now : GoTime) (ngo : NGO)
    (donation : DonationTransaction) : Block :=
  let block0 := newBlock H ngo.donationChain.chainLength now
    (serializeDonationBlockData (donationBlockData H donation))
    (latestHash ngo.donationChain) "donation"
  let block1 := Block.addValidator (Block.validate block0)
    "ebill_system" ((donation.eBill.map EBill.signature).getD "") "ebill" now
  Block.addValidator block1
    "zk_system" ((donation.zkProof.map ZKProof.proof).getD "") "zkproof" now

/-- NGO.ProcessDonation.  Returns the updated NGO together with the result or
the error (the transaction's own completed/failed marking, which nothing
downstream reads, is not threaded back). -/
def ngoProcessDonation (H : String → String) (now : GoTime) (ngo : NGO)
    (donation : DonationTransaction) (fuel : Nat) :
    NGO × Except String ProcessResult :=
  if ¬ validateEBill H donation then (ngo, .error "invalid e-bill")
  else if ¬ verifyProof donation.zkProof donation.amount donation.timestamp now
  then (ngo, .error "invalid zero-knowledge proof")
  else
    match addBlock H ngo.donationChain (donationBlock H now ngo donation) fuel with
    | (bc', some mined) =>
      ({ ngo with
          donationChain := bc',
          totalDonationsReceived := ngo.totalDonationsReceived + donation.amount },
       .ok { success := true, blockHash := mined.hash,
             transactionID := donation.transactionID, blockIndex := mined.index,
             eBill := donation.eBill })
    | (_, none) => (ngo, .error "failed to add block to blockchain")

/-- JSON array of strings. -/
def serializeStringList (l : List String) : String :=
  "[" ++ String.intercalate "," (l.map fun s => "\"" ++ s ++ "\"") ++ "]"

/-- JSON rendering of an InvoiceDetails struct (field tags in declaration
order). -/
def serializeInvoiceDetails (inv : InvoiceDetails) : String :=
  "\x7b\"invoice_number\":\"" ++ inv.invoiceNumber ++
    "\",\"gstin\":\"" ++ inv.gstin ++
    "\",\"vendor_name\":\"" ++ inv.vendorName ++
    "\",\"vendor_gstin\":\"" ++ inv.vendorGSTIN ++
    "\",\"invoice_date\":" ++ intDec inv.invoiceDate ++
    ",\"documents\":" ++ serializeStringList inv.documents ++
    ",\"bank_transaction_id\":\"" ++ inv.bankTransactionID ++
    "\",\"cheque_number\":\"" ++ inv.chequeNumber ++ "\"\x7d"

/-- JSON rendering of an AuditorValidation struct (field tags in declaration
order). -/
def serializeAuditorValidation (av : AuditorValidation) : String :=
  "\x7b\"auditor_id\":\"" ++ av.auditorID ++
    "\",\"is_valid\":" ++ (if av.isValid then "true" else "false") ++
    ",\"remarks\":\"" ++ av.remarks ++
    "\",\"audit_score\":" ++ ratDec av.auditScore ++
    ",\"timestamp\":" ++ intDec av.timestamp ++
    ",\"signature\":\"" ++ av.signature ++ "\"\x7d"

/-- NGO.extractAttachmentHashes followed by json.Marshal (each attachment map
has its keys sorted: filename, hash, type). -/
def serializeAttachments (l : List Attachment) : String :=
  "[" ++ String.intercalate ","
    (l.map fun a => "\x7b\"filename\":\"" ++ a.filename ++ "\",\"hash\":\"" ++
      a.hash ++ "\",\"type\":\"" ++ a.ftype ++ "\"\x7d") ++ "]"

/-- The payload record of an expenditure block, before serialization. -/
structure ExpenditureBlockData where
  transactionID : String
  amount : ℚ
  category : String
  description : String
  invoiceDetails : InvoiceDetails
  auditorValidation : Option AuditorValidation
  complianceScore : ℚ
  timestamp : GoTime
  attachments : List Attachment
deriving DecidableEq

/-- json.Marshal of the expenditure block payload map (keys sorted). -/
def serializeExpenditureBlockData (bd : ExpenditureBlockData) : String :=
  "\x7b\"amount\":" ++ ratDec bd.amount ++
    ",\"attachments\":" ++ serializeAttachments bd.attachments ++
    ",\"auditor_validation\":" ++
    (match bd.auditorValidation with
     | some av => serializeAuditorValidation av
     | none => "null") ++
    ",\"category\":\"" ++ bd.category ++
    "\",\"compliance_score\":" ++ ratDec bd.complianceScore ++
    ",\"currency\":\"INR\",\"description\":\"" ++ bd.description ++
    "\",\"invoice_details\":" ++ serializeInvoiceDetails bd.invoiceDetails ++
    ",\"timestamp\":" ++ intDec bd.timestamp ++
    ",\"transaction_id\":\"" ++ bd.transactionID ++
    "\",\"type\":\"expenditure\"\x7d"

/-- The payload record NGO.ProcessExpenditure builds. -/
def expenditureBlockData (expenditure : ExpenditureTransaction) :
    ExpenditureBlockData :=
  { transactionID := expenditure.transactionID,
    amount := expenditure.amount, category := expenditure.category,
    description := expenditure.description,
    invoiceDetails := expenditure.invoiceDetails,
    auditorValidation := expenditure.auditorValidation,
    complianceScore := expenditure.complianceScore,
    timestamp := expenditure.timestamp,
    attachments := expenditure.attachments }

/-- The block NGO.ProcessExpenditure constructs, validates and decorates with
the auditor validator before handing it to AddBlock. -/
def expenditureBlock (H : String → String) (now : GoTime) (ngo : NGO)
    (expenditure : ExpenditureTransaction) : Block :=
  let block0 := newBlock H ngo.expenditureChain.chainLength now
    (serializeExpenditureBlockData (expenditureBlockData expenditure))
    (latestHash ngo.expenditureChain) "expenditure"
  Block.addValidator (Block.validate block0)
    ((expenditure.auditorValidation.map AuditorValidation.auditorID).getD "")
    ((expenditure.auditorValidation.map AuditorValidation.signature).getD "")
    "auditor" now

/-- NGO.ProcessExpenditure. -/
def ngoProcessExpenditure (H : String → String) (now : GoTime) (ngo : NGO)
    (expenditure : ExpenditureTransaction) (fuel : Nat) :
    NGO × Except String ProcessResult :=
  if ((expenditure.auditorValidation.map AuditorValidation.isValid).getD false) = false
  then (ngo, .error "expenditure not validated by auditor")
  else if ¬ verifyGSTIN expenditure.invoiceDetails.gstin
  then (ngo, .error "invalid GSTIN format")
  else if expenditure.complianceScore < 60
  then (ngo, .error ("low compliance score: " ++ fmtF expenditure.complianceScore ++
    "%. Minimum required: 60%"))
  else
    match addBlock H ngo.expenditureChain (expenditureBlock H now ngo expenditure) fuel with
    | (bc', some mined) =>
      ({ ngo with
          expenditureChain := bc',
          totalExpenditureReported :=
            ngo.totalExpenditureReported + expenditure.amount },
       .ok { success := true, blockHash := mined.hash,
             transactionID := expenditure.transactionID,
             blockIndex := mined.index, eBill := none })
    | (_, none) => (ngo, .error "failed to add expenditure block to blockchain")

/-! ### part_009: the platform orchestrator -/

structure SystemStats where
  totalTransactions : Nat
  totalDonations : ℚ
  totalExpenditures : ℚ
  platformFee : ℚ
  createdAt : GoTime
deriving DecidableEq

structure Platform where
  ngos : List (String × NGO)
  donors : List (String × Donor)
  auditors : List (String × Auditor)
  kycAuthorities : List String
  systemStats : SystemStats
deriving DecidableEq

/-- Lookup in a Go map modelled as an association list. -/
def lookupA {α : Type} (l : List (String × α)) (k : String) : Option α :=
  (l.find? fun p => p.1 == k).map Prod.snd

/-- Update or insert in a Go map modelled as an association list. -/
def insertA {α : Type} (l : List (String × α)) (k : String) (v : α) :
    List (String × α) :=
  if (lookupA l k).isSome then l.map fun p => if p.1 == k then (k, v) else p
  else l ++ [(k, v)]

/-- Add to the KYC-authority set. -/
def addAuth (l : List String) (a : String) : List String :=
  if l.contains a then l else l ++ [a]

/-- platform.NewNGOTransparencyPlatform: fee 1 percent, no Polygon anchoring
configured (every claim scenario runs on a fresh platform, where the
anchoring branch is dead code). -/
def newPlatform (now : GoTime) : Platform :=
  { ngos := [], donors := [], auditors := [], kycAuthorities := [],
    systemStats :=
      { totalTransactions := 0, totalDonations := 0, totalExpenditures := 0,
        platformFee := 1/100, createdAt := now } }

/-- Platform.RegisterNGO. -/
def registerNGO (H : String → String) (now : GoTime) (p : Platform)
    (ngoID name registrationNumber category : String)
    (kycDocuments : Option String) : Platform × Except String NGO :=
  if (lookupA p.ngos ngoID).isSome then (p, .error "NGO already registered")
  else
    let ngo := newNGO H now ngoID name registrationNumber category kycDocuments
    ({ p with ngos := insertA p.ngos ngoID ngo }, .ok ngo)

/-- Platform.VerifyNGOKYC. -/
def verifyNGOKYC (now : GoTime) (p : Platform) (ngoID authorityID : String)
    (certificates : List Certificate) : Platform × Except String Unit :=
  match lookupA p.ngos ngoID with
  | none => (p, .error "NGO not found")
  | some ngo =>
    ({ p with
        kycAuthorities := addAuth p.kycAuthorities authorityID,
        ngos := insertA p.ngos ngoID (ngoVerifyKYC now ngo authorityID certificates) },
     .ok ())

/-- Platform.RegisterDonor. -/
def registerDonor (H : String → String) (now : GoTime) (p : Platform)
    (donorID : String) (documents : Option String) (annualLimit : Option ℚ) :
    Platform × Except String Donor :=
  if (lookupA p.donors donorID).isSome then (p, .error "donor already registered")
  else
    let donor := newDonor H now donorID documents annualLimit
    ({ p with donors := insertA p.donors donorID donor }, .ok donor)

/-- Platform.VerifyDonorKYC. -/
def verifyDonorKYC (p : Platform) (donorID authorityID verificationLevel : String) :
    Platform × Except String Unit :=
  match lookupA p.donors donorID with
  | none => (p, .error "donor not found")
  | some donor =>
    ({ p with
        kycAuthorities := addAuth p.kycAuthorities authorityID,
        donors := insertA p.donors donorID (donorVerifyKYC donor verificationLevel) },
     .ok ())

/-- Platform.RegisterAuditor. -/
def registerAuditor (H : String → String) (now : GoTime) (p : Platform)
    (auditorID name credentials : String)
    (specializations : Option (List String)) : Platform × Except String Auditor :=
  if (lookupA p.auditors auditorID).isSome
  then (p, .error "auditor already registered")
  else
    let auditor := newAuditor H now auditorID name credentials specializations
    ({ p with auditors := insertA p.auditors auditorID auditor }, .ok auditor)

/-- Platform.VerifyAuditorCredentials. -/
def verifyAuditorCredentials (now : GoTime) (p : Platform)
    (auditorID verificationAuthority : String) : Platform × Except String Unit :=
  match lookupA p.auditors auditorID with
  | none => (p, .error "auditor not found")
  | some auditor =>
    ({ p with
        auditors := insertA p.auditors auditorID
          (verifyCredentials now auditor verificationAuthority) },
     .ok ())

/-- Result map of Platform.ProcessDonation. -/
structure DonationOutcome where
  success : Bool
  blockHash : String
  transactionID : String
  blockIndex : Nat
  eBill : Option EBill
  platformFee : ℚ
  netAmount : ℚ
  grossAmount : ℚ
deriving DecidableEq

/-- Platform.ProcessDonation (fresh platform: no Polygon anchoring).  The
limit-exceeded error text renders the remaining amount with the rational
printer in place of fmt's currency formatting. -/
def processDonation (H : String → String) (p : Platform)
    (donorID ngoID : String) (amount : ℚ) (paymentMethod : String)
    (now : GoTime) (rnd : DonationRnd) (fuel : Nat) :
    Platform × Except String DonationOutcome :=
  match lookupA p.donors donorID, lookupA p.ngos ngoID with
  | none, _ => (p, .error "donor not found")
  | some _, none => (p, .error "NGO not found")
  | some donor, some ngo =>
    if ¬ donor.kycVerified then (p, .error "donor KYC not verified")
    else if ¬ ngo.kycData.verified then (p, .error "NGO KYC not verified")
    else
      let limitCheck := checkDonationLimit now donor amount
      if ¬ limitCheck.canDonate then
        (p, .error ("donation exceeds annual limit. Remaining: " ++
          fmtF limitCheck.remainingLimit))
      else
        let platformFee := amount * p.systemStats.platformFee
        let netAmount := amount - platformFee
        let donation := newDonationTransaction H now rnd donorID ngoID
          netAmount paymentMethod donor.kycDocumentHash
        match ngoProcessDonation H now ngo donation fuel with
        | (_, .error e) => (p, .error e)
        | (ngo', .ok result) =>
          let donor' := addDonation donor donation
          let stats := p.systemStats
          ({ p with
              ngos := insertA p.ngos ngoID ngo',
              donors := insertA p.donors donorID donor',
              systemStats :=
                { stats with
                  totalTransactions := stats.totalTransactions + 1,
                  totalDonations := stats.totalDonations + netAmount } },
           .ok { success := result.success, blockHash := result.blockHash,
                 transactionID := result.transactionID,
                 blockIndex := result.blockIndex, eBill := result.eBill,
                 platformFee := platformFee, netAmount := netAmount,
                 grossAmount := amount })

/-- The expenditure_data map handed to Platform.ProcessExpenditure.  Only the
amount, category and description entries are ever read by the source; the
invoice and attachment entries a caller may supply are carried here to state
that fact. -/
structure ExpenditureData where
  amount : Option ℚ
  category : Option String
  description : Option String
  invoiceDetails : Option InvoiceDetails
  attachments : List Attachment
deriving DecidableEq

/-- The invoice Platform.ProcessExpenditure synthesizes in place of whatever
the caller supplied: a fresh INV- number from the Unix time, the example
GSTIN, the literal vendor name, no vendor GSTIN, the current instant as
invoice date, no documents and no payment proof. -/
def synthesizedInvoice (now : GoTime) : InvoiceDetails :=
  { invoiceNumber := "INV-" ++ intDec (goUnix now),
    gstin := "27ABCDE1234F1Z5", vendorName := "Test Vendor",
    vendorGSTIN := "", invoiceDate := now, documents := [],
    bankTransactionID := "", chequeNumber := "" }

/-- The approval rule of Platform.ProcessExpenditure: the lowercased
recommendation must contain the substring approve. -/
def shouldApproveRec (recommendation : String) : Bool :=
  goContains (goToLower recommendation) "approve"

/-- Result map of Platform.ProcessExpenditure. -/
structure ExpOutcome where
  success : Bool
  blockHash : String
  transactionID : String
  blockIndex : Nat
  auditResult : AuditResult
deriving DecidableEq

/-- Platform.ProcessExpenditure (fresh platform: no Polygon anchoring).
`txId` is the random transaction identifier NewExpenditureTransaction draws.
The auditor's appended audit history persists even when the expenditure is
rejected, as the Go receiver is mutated in place before the error return. -/
def processExpenditure (H : String → String) (p : Platform) (ngoID : String)
    (ed : ExpenditureData) (auditorID : String) (now : GoTime) (txId : String)
    (fuel : Nat) : Platform × Except String ExpOutcome :=
  match lookupA p.ngos ngoID, lookupA p.auditors auditorID with
  | none, _ => (p, .error "NGO not found")
  | some _, none => (p, .error "auditor not found")
  | some ngo, some auditor =>
    if ¬ auditor.verified then (p, .error "auditor not verified")
    else
      match ed.amount with
      | none => (p, .error "invalid amount")
      | some amount =>
        let category := ed.category.getD ""
        let description := ed.description.getD ""
        let invoiceDetails := synthesizedInvoice now
        let expenditure := newExpenditureTransaction txId now ngoID amount
          category description invoiceDetails none
        let audited := auditExpenditure H now auditor expenditure ""
        let auditResult := audited.2
        let approve := shouldApproveRec auditResult.recommendation
        let expenditure1 := validateByAuditor H now expenditure auditorID
          approve auditResult.recommendation (some auditResult.complianceScore)
        let p1 := { p with auditors := insertA p.auditors auditorID audited.1 }
        if ¬ approve then
          (p1, .error ("expenditure rejected by auditor: " ++
            auditResult.recommendation))
        else
          match ngoProcessExpenditure H now ngo expenditure1 fuel with
          | (_, .error e) => (p1, .error e)
          | (ngo', .ok result) =>
            let stats := p1.systemStats
            ({ p1 with
                ngos := insertA p1.ngos ngoID ngo',
                systemStats :=
                  { stats with
                    totalTransactions := stats.totalTransactions + 1,
                    totalExpenditures := stats.totalExpenditures + amount } },
             .ok { success := result.success, blockHash := result.blockHash,
                   transactionID := result.transactionID,
                   blockIndex := result.blockIndex, auditResult := auditResult })

structure PlatformStats where
  totalNGOs : Nat
  totalDonors : Nat
  totalAuditors : Nat
  totalTransactions : Nat
  totalDonations : ℚ
  totalExpenditures : ℚ
  platformFeeCollected : ℚ
  verifiedNGOs : Nat
  verifiedDonors : Nat
  verifiedAuditors : Nat
  kycAuthorities : Nat
  averageNGORating : ℚ
deriving DecidableEq

/-- Platform.GetPlatformStats (the days-active and category fields, which no
claim inspects and whose Go map-iteration order is unspecified, are not
carried). -/
def getPlatformStats (p : Platform) : PlatformStats :=
  let verifiedNGOs := (p.ngos.filter fun q => q.2.kycData.verified).length
  let verifiedDonors := (p.donors.filter fun q => q.2.kycVerified).length
  let verifiedAuditors := (p.auditors.filter fun q => q.2.verified).length
  let totalRating := p.ngos.foldl (fun s q => s + q.2.rating) 0
  { totalNGOs := p.ngos.length, totalDonors := p.donors.length,
    totalAuditors := p.auditors.length,
    totalTransactions := p.systemStats.totalTransactions,
    totalDonations := p.systemStats.totalDonations,
    totalExpenditures := p.systemStats.totalExpenditures,
    platformFeeCollected :=
      p.systemStats.totalDonations * p.systemStats.platformFee,
    verifiedNGOs := verifiedNGOs, verifiedDonors := verifiedDonors,
    verifiedAuditors := verifiedAuditors,
    kycAuthorities := p.kycAuthorities.length,
    averageNGORating :=
      if p.ngos.length > 0 then totalRating / (p.ngos.length : ℚ) else 0 }

/-! ### Helper lemmas about the success path of donation admission -/

theorem isHex64_ne_empty {s : String} (h : isHex64 s = true) : s ≠ "" := by
  intro hs
  subst hs
  simp [isHex64] at h

theorem lookupA_map_replace {α : Type} (l : List (String × α)) (k : String)
    (v : α) (h : (lookupA l k).isSome = true) :
    lookupA (l.map fun p => if p.1 == k then (k, v) else p) k = some v := by
  induction l with
  | nil => simp [lookupA] at h
  | cons a t ih =>
    by_cases hk : (a.1 == k) = true
    · simp [lookupA, List.find?, hk]
    · unfold lookupA at h ⊢
      rw [List.find?_cons_of_neg _ (by simpa using hk)] at h
      rw [List.map_cons, if_neg hk, List.find?_cons_of_neg _ (by simpa using hk)]
      exact ih h

theorem lookupA_append_new {α : Type} (l : List (String × α)) (k : String)
    (v : α) (h : (lookupA l k).isSome = false) :
    lookupA (l ++ [(k, v)]) k = some v := by
  induction l with
  | nil => simp [lookupA, List.find?]
  | cons a t ih =>
    by_cases hk : (a.1 == k) = true
    · simp [lookupA, List.find?, hk] at h
    · simp only [lookupA, List.cons_append, List.find?, hk] at h ⊢
      exact ih h

theorem lookupA_insertA {α : Type} (l : List (String × α)) (k : String) (v : α) :
    lookupA (insertA l k v) k = some v := by
  unfold insertA
  by_cases h : (lookupA l k).isSome = true
  · rw [if_pos h]
    exact lookupA_map_replace l k v h
  · rw [if_neg h]
    exact lookupA_append_new l k v (by simpa using h)

theorem validateEBill_fresh (H : String → String) (now : GoTime)
    (rnd : DonationRnd) (donorID ngoID : String) (amount : ℚ)
    (pm kycHash : String) :
    validateEBill H
      (newDonationTransaction H now rnd donorID ngoID amount pm kycHash) = true := by
  show (_ == _) = true
  rw [beq_iff_eq]
  rfl

theorem verifyProof_generateProof (H : String → String)
    (hhex : ∀ s, isHex64 (H s) = true) (donorID : String) (amount : ℚ)
    (ts pnow now : GoTime) (ht : |hoursBetween now ts| ≤ 24) :
    verifyProof (some (generateProof H donorID amount ts pnow)) amount ts now = true := by
  rw [verifyProof]
  rw [if_neg, if_neg]
  · simp [generateProof, hhex]
  · exact not_lt.mpr ht
  · push_neg
    exact ⟨isHex64_ne_empty (hhex _), isHex64_ne_empty (hhex _),
      isHex64_ne_empty (hhex _)⟩

theorem mineAux_of_pow (H : String → String) (target : String) (fuel : Nat)
    (b : Block) (h : strStarts b.hash target = true) :
    mineAux H target fuel b = some b := by
  cases fuel <;> simp [mineAux, h]

theorem addBlock_ok (H : String → String) (bc : Blockchain) (b : Block)
    (fuel : Nat) (latest : Block)
    (hlast : bc.chain.getLast? = some latest)
    (hprev : b.previousHash = latest.hash)
    (hidx : b.index = bc.chain.length)
    (hhash : b.hash = calculateHash H b)
    (hpow : strStarts b.hash (goRepeat "0" bc.difficulty) = true) :
    addBlock H bc b fuel = ({ bc with chain := bc.chain ++ [b] }, some b) := by
  have hb1 : { b with previousHash := latest.hash, index := bc.chain.length } = b := by
    rw [← hprev, ← hidx]
  have hval : validateBlockInternal H bc b = true := by
    unfold validateBlockInternal
    simp only [hlast]
    rw [if_neg (by simp [hprev]), if_neg (by simp [← hhash])]
    exact hpow
  unfold addBlock
  simp only [hlast, hb1]
  unfold mineBlock
  rw [mineAux_of_pow H _ fuel b hpow]
  simp only [hval, if_true]

theorem ngoProcessDonation_ok (H : String → String) (now : GoTime) (ngo : NGO)
    (donation : DonationTransaction) (fuel : Nat) (latest : Block)
    (hval : validateEBill H donation = true)
    (hvp : verifyProof donation.zkProof donation.amount donation.timestamp now = true)
    (hlast : ngo.donationChain.chain.getLast? = some latest)
    (hpow : strStarts (donationBlock H now ngo donation).hash
      (goRepeat "0" ngo.donationChain.difficulty) = true) :
    ngoProcessDonation H now ngo donation fuel =
      ({ ngo with
          donationChain := { ngo.donationChain with
            chain := ngo.donationChain.chain ++ [donationBlock H now ngo donation] },
          totalDonationsReceived := ngo.totalDonationsReceived + donation.amount },
       .ok { success := true, blockHash := (donationBlock H now ngo donation).hash,
             transactionID := donation.transactionID,
             blockIndex := (donationBlock H now ngo donation).index,
             eBill := donation.eBill }) := by
  have hlh : latestHash ngo.donationChain = latest.hash := by
    rw [latestHash, Blockchain.getLatest, hlast]
    rfl
  have hprev : (donationBlock H now ngo donation).previousHash = latest.hash := hlh
  have hidx : (donationBlock H now ngo donation).index =
    ngo.donationChain.chain.length := rfl
  have hhash : (donationBlock H now ngo donation).hash =
    calculateHash H (donationBlock H now ngo donation) := rfl
  unfold ngoProcessDonation
  simp only [hval, hvp, eq_self_iff_true, not_true, if_false]
  rw [addBlock_ok H ngo.donationChain (donationBlock H now ngo donation) fuel
    latest hlast hprev hidx hhash hpow]

/-- The donation transaction the orchestrator constructs for a gross amount. -/
def orchestratedDonation (H : String → String) (p : Platform) (donor : Donor)
    (donorID ngoID : String) (g : ℚ) (pm : String) (now : GoTime)
    (rnd : DonationRnd) : DonationTransaction :=
  newDonationTransaction H now rnd donorID ngoID
    (g - g * p.systemStats.platformFee) pm donor.kycDocumentHash

theorem processDonation_ok (H : String → String)
    (hhex : ∀ s, isHex64 (H s) = true)
    (p : Platform) (donorID ngoID : String) (g : ℚ) (pm : String)
    (now : GoTime) (rnd : DonationRnd) (fuel : Nat)
    (donor : Donor) (ngo : NGO) (latest : Block)
    (hdonor : lookupA p.donors donorID = some donor)
    (hngo : lookupA p.ngos ngoID = some ngo)
    (hdkyc : donor.kycVerified = true)
    (hnkyc : ngo.kycData.verified = true)
    (hlimit : (checkDonationLimit now donor g).canDonate = true)
    (hlast : ngo.donationChain.chain.getLast? = some latest)
    (hpow : strStarts
      (donationBlock H now ngo (orchestratedDonation H p donor donorID ngoID g pm now rnd)).hash
      (goRepeat "0" ngo.donationChain.difficulty) = true) :
    processDonation H p donorID ngoID g pm now rnd fuel =
      ({ p with
          ngos := insertA p.ngos ngoID
            { ngo with
              donationChain := { ngo.donationChain with
                chain := ngo.donationChain.chain ++
                  [donationBlock H now ngo (orchestratedDonation H p donor donorID ngoID g pm now rnd)] },
              totalDonationsReceived := ngo.totalDonationsReceived +
                (g - g * p.systemStats.platformFee) },
          donors := insertA p.donors donorID
            (addDonation donor (orchestratedDonation H p donor donorID ngoID g pm now rnd)),
          systemStats := { p.systemStats with
            totalTransactions := p.systemStats.totalTransactions + 1,
            totalDonations := p.systemStats.totalDonations +
              (g - g * p.systemStats.platformFee) } },
       .ok { success := true,
             blockHash := (donationBlock H now ngo
               (orchestratedDonation H p donor donorID ngoID g pm now rnd)).hash,
             transactionID := rnd.txId,
             blockIndex := (donationBlock H now ngo
               (orchestratedDonation H p donor donorID ngoID g pm now rnd)).index,
             eBill := (orchestratedDonation H p donor donorID ngoID g pm now rnd).eBill,
             platformFee := g * p.systemStats.platformFee,
             netAmount := g - g * p.systemStats.platformFee,
             grossAmount := g }) := by
  have hval : validateEBill H
      (orchestratedDonation H p donor donorID ngoID g pm now rnd) = true :=
    validateEBill_fresh H now rnd donorID ngoID _ pm donor.kycDocumentHash
  have hvp : verifyProof
      (orchestratedDonation H p donor donorID ngoID g pm now rnd).zkProof
      (orchestratedDonation H p donor donorID ngoID g pm now rnd).amount
      (orchestratedDonation H p donor donorID ngoID g pm now rnd).timestamp
      now = true := by
    have := verifyProof_generateProof H hhex donorID
      (g - g * p.systemStats.platformFee) now now now
      (by simp [hoursBetween])
    exact this
  unfold processDonation
  simp only [hdonor, hngo, hdkyc, hnkyc, hlimit, eq_self_iff_true, not_true,
    if_false]
  rw [show newDonationTransaction H now rnd donorID ngoID
      (g - g * p.systemStats.platformFee) pm donor.kycDocumentHash =
      orchestratedDonation H p donor donorID ngoID g pm now rnd from rfl]
  rw [ngoProcessDonation_ok H now ngo
    (orchestratedDonation H p donor donorID ngoID g pm now rnd) fuel latest
    hval hvp hlast hpow]
  rfl

/-! ### Shared digest facts and inversion of the mining step -/

/-- The constant digest is 64 lowercase hex characters. -/
theorem hex00_isHex (s : String) : isHex64 (hex00 s) = true := by
  have h : isHex64 "00aaaaaaaaaaaaaaaaaaaaaaaaaaaaaaaaaaaaaaaaaaaaaaaaaaaaaaaaaaaaaa" = true := by
    decide
  exact h

/-- Mining never changes the payload of a block. -/
theorem mineAux_data (H : String → String) (target : String) :
    ∀ (fuel : Nat) (b m : Block), mineAux H target fuel b = some m → m.data = b.data
  | 0, b, m, h => by
    unfold mineAux at h
    split at h
    · cases h; rfl
    · cases h
  | fuel + 1, b, m, h => by
    unfold mineAux at h
    dsimp only at h
    split at h
    · cases h; rfl
    · have hr := mineAux_data H target fuel _ m h
      exact hr

/-- A successful AddBlock extends the chain by exactly the mined block, whose
payload is the candidate payload. -/
theorem addBlock_inv (H : String → String) (bc : Blockchain) (b : Block)
    (fuel : Nat) (bc' : Blockchain) (m : Block)
    (h : addBlock H bc b fuel = (bc', some m)) :
    bc'.chain = bc.chain ++ [m] ∧ m.data = b.data := by
  unfold addBlock at h
  dsimp only at h
  split at h
  · simp at h
  · split at h
    · simp at h
    · next mined heq =>
      split at h
      · injection h with h1 h2
        injection h2 with h2
        subst h1; subst h2
        refine ⟨rfl, ?_⟩
        have hr := mineAux_data H (goRepeat "0" bc.difficulty) fuel _ mined heq
        exact hr
      · simp at h

/-! ### The seed-scenario platform of the donation walkthrough: one NGO with
verified KYC, one donor with verified basic KYC, fee percentage 1/100, all
clock reads during registration at 0 and during the donations at 5. -/

def c4P : Platform :=
  (verifyDonorKYC
    (registerDonor hex00 0
      (verifyNGOKYC 0
        (registerNGO hex00 0 (newPlatform 0) "NGO001" "Helping Hands" "REG1"
          "Education" none).1
        "NGO001" "AUTH0001" [{ ctype := "80G", number := "C1", validUntil := "2030" }]).1
      "D1" none none).1
    "D1" "AUTH0001" "basic").1

/-- The donor record held by c4P. -/
def c4donor0 : Donor := donorVerifyKYC (newDonor hex00 0 "D1" none none) "basic"

/-- The NGO record held by c4P. -/
def c4ngo0 : NGO :=
  ngoVerifyKYC 0 (newNGO hex00 0 "NGO001" "Helping Hands" "REG1" "Education" none)
    "AUTH0001" [{ ctype := "80G", number := "C1", validUntil := "2030" }]

def c4rnd1 : DonationRnd := { txId := "aaaa0001", billId := "bbbb0001" }

def c4rnd2 : DonationRnd := { txId := "aaaa0002", billId := "bbbb0002" }

def c4rnd3 : DonationRnd := { txId := "aaaa0003", billId := "bbbb0003" }

/-- The transaction built by the first donation (gross 50000). -/
def c4don1 : DonationTransaction :=
  orchestratedDonation hex00 c4P c4donor0 "D1" "NGO001" 50000 "UPI" 5 c4rnd1

/-- Platform state after the first donation. -/
def c4P1 : Platform :=
  { c4P with
      ngos := insertA c4P.ngos "NGO001"
        { c4ngo0 with
          donationChain := { c4ngo0.donationChain with
            chain := c4ngo0.donationChain.chain ++ [donationBlock hex00 5 c4ngo0 c4don1] },
          totalDonationsReceived := c4ngo0.totalDonationsReceived +
            (50000 - 50000 * c4P.systemStats.platformFee) },
      donors := insertA c4P.donors "D1" (addDonation c4donor0 c4don1),
      systemStats := { c4P.systemStats with
        totalTransactions := c4P.systemStats.totalTransactions + 1,
        totalDonations := c4P.systemStats.totalDonations +
          (50000 - 50000 * c4P.systemStats.platformFee) } }

/-- Result map returned by the first donation. -/
def c4out1 : DonationOutcome :=
  { success := true, blockHash := (donationBlock hex00 5 c4ngo0 c4don1).hash,
    transactionID := "aaaa0001",
    blockIndex := (donationBlock hex00 5 c4ngo0 c4don1).index,
    eBill := c4don1.eBill, platformFee := 50000 * (1/100 : ℚ),
    netAmount := 50000 - 50000 * (1/100 : ℚ), grossAmount := 50000 }

theorem c4h1 : processDonation hex00 c4P "D1" "NGO001" 50000 "UPI" 5 c4rnd1 1 =
    (c4P1, .ok c4out1) := by
  rw [processDonation_ok hex00 hex00_isHex c4P "D1" "NGO001" 50000 "UPI" 5 c4rnd1 1
    c4donor0 c4ngo0 (createGenesisBlock hex00 "NGO001" "donation" 0) rfl rfl rfl rfl
    (by show decide _ = true
        rw [decide_eq_true_eq]
        show (0:ℚ) + 50000 ≤ 1000000
        norm_num)
    rfl
    (by have h : strStarts "00aaaaaaaaaaaaaaaaaaaaaaaaaaaaaaaaaaaaaaaaaaaaaaaaaaaaaaaaaaaaaa" "00" = true := by
          decide
        exact h)]
  rfl

/-- Donor record after the first donation. -/
def c4donor1 : Donor := addDonation c4donor0 c4don1

/-- NGO record after the first donation. -/
def c4ngo1 : NGO :=
  { c4ngo0 with
    donationChain := { c4ngo0.donationChain with
      chain := c4ngo0.donationChain.chain ++ [donationBlock hex00 5 c4ngo0 c4don1] },
    totalDonationsReceived := c4ngo0.totalDonationsReceived +
      (50000 - 50000 * c4P.systemStats.platformFee) }

theorem c4hd1 : lookupA c4P1.donors "D1" = some c4donor1 := by
  show lookupA (insertA c4P.donors "D1" c4donor1) "D1" = some c4donor1
  exact lookupA_insertA _ _ _

theorem c4hn1 : lookupA c4P1.ngos "NGO001" = some c4ngo1 := by
  show lookupA (insertA c4P.ngos "NGO001" c4ngo1) "NGO001" = some c4ngo1
  exact lookupA_insertA _ _ _

/-- The transaction built by the second donation (gross 25000). -/
def c4don2 : DonationTransaction :=
  orchestratedDonation hex00 c4P1 c4donor1 "D1" "NGO001" 25000 "UPI" 5 c4rnd2

/-- NGO record after the second donation. -/
def c4ngo2 : NGO :=
  { c4ngo1 with
    donationChain := { c4ngo1.donationChain with
      chain := c4ngo1.donationChain.chain ++ [donationBlock hex00 5 c4ngo1 c4don2] },
    totalDonationsReceived := c4ngo1.totalDonationsReceived +
      (25000 - 25000 * c4P1.systemStats.platformFee) }

/-- Donor record after the second donation. -/
def c4donor2 : Donor := addDonation c4donor1 c4don2

/-- Platform state after the second donation. -/
def c4P2 : Platform :=
  { c4P1 with
      ngos := insertA c4P1.ngos "NGO001" c4ngo2,
      donors := insertA c4P1.donors "D1" c4donor2,
      systemStats := { c4P1.systemStats with
        totalTransactions := c4P1.systemStats.totalTransactions + 1,
        totalDonations := c4P1.systemStats.totalDonations +
          (25000 - 25000 * c4P1.systemStats.platformFee) } }

/-- Result map returned by the second donation. -/
def c4out2 : DonationOutcome :=
  { success := true, blockHash := (donationBlock hex00 5 c4ngo1 c4don2).hash,
    transactionID := "aaaa0002",
    blockIndex := (donationBlock hex00 5 c4ngo1 c4don2).index,
    eBill := c4don2.eBill, platformFee := 25000 * (1/100 : ℚ),
    netAmount := 25000 - 25000 * (1/100 : ℚ), grossAmount := 25000 }

theorem c4h2 : processDonation hex00 c4P1 "D1" "NGO001" 25000 "UPI" 5 c4rnd2 1 =
    (c4P2, .ok c4out2) := by
  rw [processDonation_ok hex00 hex00_isHex c4P1 "D1" "NGO001" 25000 "UPI" 5 c4rnd2 1
    c4donor1 c4ngo1 (donationBlock hex00 5 c4ngo0 c4don1) c4hd1 c4hn1 rfl rfl
    (by have hamt : c4don1.amount = 50000 - 50000 * (1/100 : ℚ) := rfl
        have hts : c4don1.timestamp = 5 := rfl
        show decide _ = true
        rw [decide_eq_true_eq]
        simp only [c4donor1, addDonation, c4donor0, donorVerifyKYC, newDonor]
        norm_num [checkDonationLimit, List.filter, List.foldl, hamt, hts]
        rw [if_neg (by decide : ¬ ("basic" = "premium"))]
        norm_num)
    rfl
    (by have h : strStarts "00aaaaaaaaaaaaaaaaaaaaaaaaaaaaaaaaaaaaaaaaaaaaaaaaaaaaaaaaaaaaaa" "00" = true := by
          decide
        exact h)]
  rfl

theorem c4hd2 : lookupA c4P2.donors "D1" = some c4donor2 := by
  show lookupA (insertA c4P1.donors "D1" c4donor2) "D1" = some c4donor2
  exact lookupA_insertA _ _ _

theorem c4hn2 : lookupA c4P2.ngos "NGO001" = some c4ngo2 := by
  show lookupA (insertA c4P1.ngos "NGO001" c4ngo2) "NGO001" = some c4ngo2
  exact lookupA_insertA _ _ _

/-- The transaction built by the third donation (gross 30000). -/
def c4don3 : DonationTransaction :=
  orchestratedDonation hex00 c4P2 c4donor2 "D1" "NGO001" 30000 "UPI" 5 c4rnd3

/-- NGO record after the third donation. -/
def c4ngo3 : NGO :=
  { c4ngo2 with
    donationChain := { c4ngo2.donationChain with
      chain := c4ngo2.donationChain.chain ++ [donationBlock hex00 5 c4ngo2 c4don3] },
    totalDonationsReceived := c4ngo2.totalDonationsReceived +
      (30000 - 30000 * c4P2.systemStats.platformFee) }

/-- Platform state after the third donation. -/
def c4P3 : Platform :=
  { c4P2 with
      ngos := insertA c4P2.ngos "NGO001" c4ngo3,
      donors := insertA c4P2.donors "D1" (addDonation c4donor2 c4don3),
      systemStats := { c4P2.systemStats with
        totalTransactions := c4P2.systemStats.totalTransactions + 1,
        totalDonations := c4P2.systemStats.totalDonations +
          (30000 - 30000 * c4P2.systemStats.platformFee) } }

/-- Result map returned by the third donation. -/
def c4out3 : DonationOutcome :=
  { success := true, blockHash := (donationBlock hex00 5 c4ngo2 c4don3).hash,
    transactionID := "aaaa0003",
    blockIndex := (donationBlock hex00 5 c4ngo2 c4don3).index,
    eBill := c4don3.eBill, platformFee := 30000 * (1/100 : ℚ),
    netAmount := 30000 - 30000 * (1/100 : ℚ), grossAmount := 30000 }

theorem c4h3 : processDonation hex00 c4P2 "D1" "NGO001" 30000 "UPI" 5 c4rnd3 1 =
    (c4P3, .ok c4out3) := by
  rw [processDonation_ok hex00 hex00_isHex c4P2 "D1" "NGO001" 30000 "UPI" 5 c4rnd3 1
    c4donor2 c4ngo2 (donationBlock hex00 5 c4ngo1 c4don2) c4hd2 c4hn2 rfl rfl
    (by have hamt1 : c4don1.amount = 50000 - 50000 * (1/100 : ℚ) := rfl
        have hamt2 : c4don2.amount = 25000 - 25000 * (1/100 : ℚ) := rfl
        have hts1 : c4don1.timestamp = 5 := rfl
        have hts2 : c4don2.timestamp = 5 := rfl
        show decide _ = true
        rw [decide_eq_true_eq]
        simp only [c4donor2, c4donor1, addDonation, c4donor0, donorVerifyKYC, newDonor]
        norm_num [checkDonationLimit, List.filter, List.foldl, hamt1, hamt2, hts1, hts2]
        rw [if_neg (by decide : ¬ ("basic" = "premium"))]
        norm_num)
    rfl
    (by have h : strStarts "00aaaaaaaaaaaaaaaaaaaaaaaaaaaaaaaaaaaaaaaaaaaaaaaaaaaaaaaaaaaaaa" "00" = true := by
          decide
        exact h)]
  rfl

/-- Platform state after the first orchestrated donation of the seed
scenario. -/
def c4mid1 : Platform :=
  (processDonation hex00 c4P "D1" "NGO001" 50000 "UPI" 5 c4rnd1 1).1

/-- Platform state after the second orchestrated donation. -/
def c4mid2 : Platform :=
  (processDonation hex00 c4mid1 "D1" "NGO001" 25000 "UPI" 5 c4rnd2 1).1

/-- Platform state after all three orchestrated donations. -/
def c4final : Platform :=
  (processDonation hex00 c4mid2 "D1" "NGO001" 30000 "UPI" 5 c4rnd3 1).1

theorem c4mid1_eq : c4mid1 = c4P1 := by
  unfold c4mid1
  rw [c4h1]

theorem c4mid2_eq : c4mid2 = c4P2 := by
  unfold c4mid2
  rw [c4mid1_eq, c4h2]

theorem c4final_eq : c4final = c4P3 := by
  unfold c4final
  rw [c4mid2_eq, c4h3]

theorem c4ngoF_lookup : lookupA c4final.ngos "NGO001" = some c4ngo3 := by
  rw [c4final_eq]
  show lookupA (insertA c4P2.ngos "NGO001" c4ngo3) "NGO001" = some c4ngo3
  exact lookupA_insertA _ _ _

theorem c4total : c4ngo3.totalDonationsReceived = 103950 := by
  have h : c4ngo3.totalDonationsReceived =
      (0 : ℚ) + (50000 - 50000 * (1/100)) + (25000 - 25000 * (1/100)) +
        (30000 - 30000 * (1/100)) := rfl
  rw [h]; norm_num

theorem c4feeEq : (getPlatformStats c4final).platformFeeCollected = 2079 / 2 := by
  rw [c4final_eq]
  have h : (getPlatformStats c4P3).platformFeeCollected =
      ((0 : ℚ) + (50000 - 50000 * (1/100)) + (25000 - 25000 * (1/100)) +
        (30000 - 30000 * (1/100))) * (1/100) := rfl
  rw [h]; norm_num

/-- **C4** (counterexample).  The spec expects platform_fee_collected = 1050
after the 50000/25000/30000 seed donations, but GetPlatformStats multiplies
the NET donation total by the fee rate: the NGO indeed ends at 103950, yet
the reported fee collected is 103950/100 = 1039.5, not 1050. -/
theorem claim_c4_counterexample :
    (∃ ngoF, lookupA c4final.ngos "NGO001" = some ngoF ∧
      ngoF.totalDonationsReceived = 103950) ∧
    (getPlatformStats c4final).platformFeeCollected ≠ 1050 := by
  refine ⟨⟨c4ngo3, c4ngoF_lookup, c4total⟩, ?_⟩
  rw [c4feeEq]
  norm_num

/-- **C4** (amended).  On the fresh 1/100-fee platform with one KYC-verified
NGO and one KYC-verified donor, the three orchestrated donations of gross
50000, 25000 and 30000 all succeed, the NGO ends with
total_donations_received = 103950, and GetPlatformStats reports
platform_fee_collected = 1039.5 (= 2079/2), the fee rate applied to the net
total rather than the 1050 the spec expects. -/
theorem claim_c4_amended :
    (processDonation hex00 c4P "D1" "NGO001" 50000 "UPI" 5 c4rnd1 1).2 = .ok c4out1 ∧
    (processDonation hex00 c4mid1 "D1" "NGO001" 25000 "UPI" 5 c4rnd2 1).2 = .ok c4out2 ∧
    (processDonation hex00 c4mid2 "D1" "NGO001" 30000 "UPI" 5 c4rnd3 1).2 = .ok c4out3 ∧
    (∃ ngoF, lookupA c4final.ngos "NGO001" = some ngoF ∧
      ngoF.totalDonationsReceived = 103950) ∧
    (getPlatformStats c4final).platformFeeCollected = 2079 / 2 := by
  refine ⟨?_, ?_, ?_, ⟨c4ngo3, c4ngoF_lookup, c4total⟩, c4feeEq⟩
  · rw [c4h1]
  · rw [c4mid1_eq, c4h2]
  · rw [c4mid2_eq, c4h3]

/-- **C7**.  Fee conservation of a successful orchestrated donation at fee
rate 1/100: the returned platform_fee is g/100, net = g − g/100,
gross = net + fee = g, and the NGO is credited with exactly net, with the
appended block carrying a donation payload whose amount equals net. -/
theorem claim_c7 (H : String → String) (p : Platform) (donorID ngoID : String)
    (g : ℚ) (pm : String) (now : GoTime) (rnd : DonationRnd) (fuel : Nat)
    (p' : Platform) (out : DonationOutcome)
    (hfee : p.systemStats.platformFee = 1/100)
    (h : processDonation H p donorID ngoID g pm now rnd fuel = (p', .ok out)) :
    out.platformFee = g * (1/100) ∧
    out.netAmount = g - g * (1/100) ∧
    out.grossAmount = out.netAmount + out.platformFee ∧
    out.grossAmount = g ∧
    ∃ ngo ngoF blk bd,
      lookupA p.ngos ngoID = some ngo ∧
      lookupA p'.ngos ngoID = some ngoF ∧
      ngoF.totalDonationsReceived = ngo.totalDonationsReceived + out.netAmount ∧
      ngoF.donationChain.chain = ngo.donationChain.chain ++ [blk] ∧
      blk.data = serializeDonationBlockData bd ∧
      bd.amount = out.netAmount := by
  unfold processDonation at h
  dsimp only at h
  split at h
  · simp at h
  · simp at h
  · next donor ngo hd hn =>
    split at h
    · simp at h
    · split at h
      · simp at h
      · split at h
        · simp at h
        · split at h
          · simp at h
          · next ngo' result heq =>
            injection h with h1 h2
            injection h2 with h2
            subst h1; subst h2
            unfold ngoProcessDonation at heq
            split at heq
            · simp at heq
            · split at heq
              · simp at heq
              · split at heq
                · next bc' mined heq3 =>
                  injection heq with he1 he2
                  injection he2 with he2
                  subst he1; subst he2
                  obtain ⟨hch, hdata⟩ := addBlock_inv H _ _ _ _ _ heq3
                  refine ⟨?_, ?_, ?_, rfl, ngo,
                    { ngo with
                      donationChain := bc',
                      totalDonationsReceived := ngo.totalDonationsReceived +
                        (g - g * p.systemStats.platformFee) },
                    mined,
                    donationBlockData H (newDonationTransaction H now rnd donorID ngoID
                      (g - g * p.systemStats.platformFee) pm donor.kycDocumentHash),
                    hn, ?_, rfl, hch, hdata, rfl⟩
                  · show g * p.systemStats.platformFee = g * (1/100)
                    rw [hfee]
                  · show g - g * p.systemStats.platformFee = g - g * (1/100)
                    rw [hfee]
                  · show (g : ℚ) = (g - g * p.systemStats.platformFee) +
                      g * p.systemStats.platformFee
                    ring
                  · exact lookupA_insertA _ _ _
                · simp at heq

/-- **C7** witness: the first seed donation (gross 50000 on the fresh
1/100-fee platform) discharges both hypotheses of claim_c7 concretely. -/
theorem claim_c7_witness :
    (c4P.systemStats.platformFee = 1/100 ∧
      processDonation hex00 c4P "D1" "NGO001" 50000 "UPI" 5 c4rnd1 1 =
        (c4P1, .ok c4out1)) ∧
    (c4out1.platformFee = 50000 * (1/100) ∧
      c4out1.netAmount = 50000 - 50000 * (1/100) ∧
      c4out1.grossAmount = c4out1.netAmount + c4out1.platformFee ∧
      c4out1.grossAmount = 50000 ∧
      ∃ ngo ngoF blk bd,
        lookupA c4P.ngos "NGO001" = some ngo ∧
        lookupA c4P1.ngos "NGO001" = some ngoF ∧
        ngoF.totalDonationsReceived = ngo.totalDonationsReceived + c4out1.netAmount ∧
        ngoF.donationChain.chain = ngo.donationChain.chain ++ [blk] ∧
        blk.data = serializeDonationBlockData bd ∧
        bd.amount = c4out1.netAmount) :=
  ⟨⟨rfl, c4h1⟩,
   claim_c7 hex00 c4P "D1" "NGO001" 50000 "UPI" 5 c4rnd1 1 c4P1 c4out1 rfl c4h1⟩

/-! ### The orchestrated expenditure path -/

/-- Every transaction the orchestrator builds — synthesized invoice, no
attachments — scores exactly 45: invoice number 20, GSTIN 20, age 5; vendor
pair, payment proof, documents and attachments all score 0. -/
theorem synthesized_score_45 (txId : String) (now : GoTime) (ngoID : String)
    (amount : ℚ) (category description : String) :
    (newExpenditureTransaction txId now ngoID amount category description
      (synthesizedInvoice now) none).complianceScore = 45 := by
  have h1 : ("INV-" ++ intDec (goUnix now)) ≠ "" := by
    intro h
    have hlen := congrArg String.length h
    rw [String.length_append] at hlen
    simp at hlen
    exact absurd hlen.1 (by decide)
  have h2 : verifyGSTIN "27ABCDE1234F1Z5" = true := by decide
  norm_num [newExpenditureTransaction, calculateComplianceScore,
    synthesizedInvoice, hoursBetween, h1, h2]

/-- Platform.ProcessExpenditure always rejects (NGO and verified auditor
present, amount supplied): the synthesized transaction scores 45, drawing
the Reject recommendation, which does not contain the substring approve, and
the NGO map is left untouched. -/
theorem pe_reject (H : String → String) (p : Platform)
    (ngoID auditorID txId : String) (now : GoTime) (fuel : Nat)
    (ed : ExpenditureData) (ngo : NGO) (auditor : Auditor) (amount : ℚ)
    (hngo : lookupA p.ngos ngoID = some ngo)
    (haud : lookupA p.auditors auditorID = some auditor)
    (hver : auditor.verified = true)
    (hamt : ed.amount = some amount) :
    (processExpenditure H p ngoID ed auditorID now txId fuel).2 =
      Except.error
        "expenditure rejected by auditor: Reject - Insufficient compliance and documentation" ∧
    (processExpenditure H p ngoID ed auditorID now txId fuel).1.ngos = p.ngos := by
  have hscore := synthesized_score_45 txId now ngoID amount
    (ed.category.getD "") (ed.description.getD "")
  have hrec : generateRecommendation (newExpenditureTransaction txId now ngoID
      amount (ed.category.getD "") (ed.description.getD "")
      (synthesizedInvoice now) none) =
      "Reject - Insufficient compliance and documentation" := by
    rw [generateRecommendation, hscore]
    norm_num
  have happ : shouldApproveRec
      "Reject - Insufficient compliance and documentation" = false := by decide
  unfold processExpenditure
  simp only [hngo, haud, hver, hamt, auditExpenditure, hrec, happ]
  norm_num [insertA]
  rfl

/-- The seed-scenario platform of the expenditure walkthrough: one NGO with
verified KYC and one auditor with verified credentials, clock at 0. -/
def c1P : Platform :=
  (verifyAuditorCredentials 0
    (registerAuditor hex00 0
      (verifyNGOKYC 0
        (registerNGO hex00 0 (newPlatform 0) "NGO001" "Helping Hands" "REG1"
          "Education" none).1
        "NGO001" "AUTH0001" [{ ctype := "80G", number := "C1", validUntil := "2030" }]).1
      "AUD00001" "Audit Firm" "LIC-1" none).1
    "AUD00001" "ICAI").1

/-- The NGO record held by c1P. -/
def c1ngo0 : NGO :=
  ngoVerifyKYC 0 (newNGO hex00 0 "NGO001" "Helping Hands" "REG1" "Education" none)
    "AUTH0001" [{ ctype := "80G", number := "C1", validUntil := "2030" }]

/-- The auditor record held by c1P. -/
def c1aud : Auditor :=
  verifyCredentials 0 (newAuditor hex00 0 "AUD00001" "Audit Firm" "LIC-1" none) "ICAI"

/-- Expenditure data with every field populated, including a full invoice
with payment proof (bank transaction id), documents, and an attachment. -/
def c1ed : ExpenditureData :=
  { amount := some 40000, category := some "Education",
    description := some "School supplies",
    invoiceDetails := some
      { invoiceNumber := "INV-2024-001", gstin := "27ABCDE1234F1Z5",
        vendorName := "ABC Traders", vendorGSTIN := "29ZYXWV9876K1Z8",
        invoiceDate := 0, documents := ["invoice.pdf", "receipt.pdf"],
        bankTransactionID := "BANKTXN123", chequeNumber := "" },
    attachments :=
      [{ filename := "invoice.pdf", hash := "h1", ftype := "invoice",
         uploadedAt := 0 }] }

/-- **C1** (code bug).  The spec expects the all-fields-populated expenditure
of 40000 to score 100, be approved and appended, leaving
total_expenditure_reported = 40000.  In the code ProcessExpenditure discards
the caller-supplied invoice and attachments, builds the transaction over the
synthesized invoice, scores 45, rejects with the Reject recommendation, and
leaves the NGO untouched at total_expenditure_reported = 0. -/
theorem claim_c1 :
    (newExpenditureTransaction "TX1" 0 "NGO001" 40000 "Education" "School supplies"
      (synthesizedInvoice 0) none).complianceScore = 45 ∧
    (processExpenditure hex00 c1P "NGO001" c1ed "AUD00001" 0 "TX1" 1).2 =
      Except.error
        "expenditure rejected by auditor: Reject - Insufficient compliance and documentation" ∧
    (processExpenditure hex00 c1P "NGO001" c1ed "AUD00001" 0 "TX1" 1).1.ngos = c1P.ngos ∧
    (∃ ngo, lookupA c1P.ngos "NGO001" = some ngo ∧ ngo.totalExpenditureReported = 0) ∧
    (45 : ℚ) ≠ 100 := by
  obtain ⟨h1, h2⟩ := pe_reject hex00 c1P "NGO001" "AUD00001" "TX1" 0 1 c1ed
    c1ngo0 c1aud 40000 rfl rfl rfl rfl
  exact ⟨synthesized_score_45 "TX1" 0 "NGO001" 40000 "Education" "School supplies",
    h1, h2, ⟨c1ngo0, rfl, rfl⟩, by norm_num⟩

/-- **C2**.  ProcessExpenditure ignores whatever invoice details and
attachments the caller supplies; it builds the transaction over the
synthesized invoice (INV- number from the Unix time, the example GSTIN,
vendor Test Vendor, empty vendor GSTIN, invoice date now, no documents, no
payment proof) and nil attachments, so the compliance score is always 45. -/
theorem claim_c2 :
    (∀ (H : String → String) (p : Platform) (ngoID auditorID txId : String)
        (now : GoTime) (fuel : Nat) (amount : Option ℚ)
        (category description : Option String) (inv : Option InvoiceDetails)
        (att : List Attachment),
      processExpenditure H p ngoID ⟨amount, category, description, inv, att⟩
          auditorID now txId fuel =
        processExpenditure H p ngoID ⟨amount, category, description, none, []⟩
          auditorID now txId fuel) ∧
    (∀ now : GoTime,
      synthesizedInvoice now =
        { invoiceNumber := "INV-" ++ intDec (goUnix now),
          gstin := "27ABCDE1234F1Z5", vendorName := "Test Vendor",
          vendorGSTIN := "", invoiceDate := now, documents := [],
          bankTransactionID := "", chequeNumber := "" }) ∧
    (∀ (txId : String) (now : GoTime) (ngoID : String) (amount : ℚ)
        (category description : String),
      (newExpenditureTransaction txId now ngoID amount category description
        (synthesizedInvoice now) none).invoiceDetails = synthesizedInvoice now ∧
      (newExpenditureTransaction txId now ngoID amount category description
        (synthesizedInvoice now) none).attachments = []) ∧
    (∀ (txId : String) (now : GoTime) (ngoID : String) (amount : ℚ)
        (category description : String),
      (newExpenditureTransaction txId now ngoID amount category description
        (synthesizedInvoice now) none).complianceScore = 45) :=
  ⟨fun _ _ _ _ _ _ _ _ _ _ _ _ => rfl, fun _ => rfl,
   fun _ _ _ _ _ _ => ⟨rfl, rfl⟩, synthesized_score_45⟩

/-- **C3**.  The orchestrator approval rule (lowercased recommendation
contains the substring approve) coincides with starts-with-Approve on every
text generateRecommendation can produce; the 60–69 bucket (Conditional
approval — the word approval lacks the substring approve) and the 50–59
bucket (Review required) are both rejected; and a rejected orchestrated
expenditure fails with the recommendation text in the error while the NGO
map is untouched. -/
theorem claim_c3 :
    (∀ et : ExpenditureTransaction,
      shouldApproveRec (generateRecommendation et) =
        strStarts (generateRecommendation et) "Approve") ∧
    (∀ et : ExpenditureTransaction,
      60 ≤ et.complianceScore → et.complianceScore < 70 →
      generateRecommendation et =
        "Conditional approval - Requires additional documentation" ∧
      shouldApproveRec (generateRecommendation et) = false) ∧
    (∀ et : ExpenditureTransaction,
      50 ≤ et.complianceScore → et.complianceScore < 60 →
      generateRecommendation et = "Review required - Significant compliance gaps" ∧
      shouldApproveRec (generateRecommendation et) = false) ∧
    (∀ (H : String → String) (p : Platform) (ngoID auditorID txId : String)
        (now : GoTime) (fuel : Nat) (ed : ExpenditureData) (ngo : NGO)
        (auditor : Auditor) (amount : ℚ),
      lookupA p.ngos ngoID = some ngo →
      lookupA p.auditors auditorID = some auditor →
      auditor.verified = true →
      ed.amount = some amount →
      (processExpenditure H p ngoID ed auditorID now txId fuel).2 =
        Except.error ("expenditure rejected by auditor: " ++
          "Reject - Insufficient compliance and documentation") ∧
      (processExpenditure H p ngoID ed auditorID now txId fuel).1.ngos = p.ngos) := by
  refine ⟨?_, ?_, ?_, ?_⟩
  · intro et
    unfold generateRecommendation
    split_ifs <;> decide
  · intro et h1 h2
    unfold generateRecommendation
    split_ifs <;> first | exact ⟨rfl, by decide⟩ | linarith
  · intro et h1 h2
    unfold generateRecommendation
    split_ifs <;> first | exact ⟨rfl, by decide⟩ | linarith
  · intro H p ngoID auditorID txId now fuel ed ngo auditor amount hngo haud hver hamt
    exact pe_reject H p ngoID auditorID txId now fuel ed ngo auditor amount
      hngo haud hver hamt

/-- A transaction whose stored compliance score sits in the 60–69 bucket. -/
def c3et65 : ExpenditureTransaction :=
  { transactionID := "T65", ngoID := "NGO001", amount := 1000,
    category := "Education", description := "", timestamp := 0,
    invoiceDetails :=
      { invoiceNumber := "", gstin := "", vendorName := "", vendorGSTIN := "",
        invoiceDate := 0, documents := [], bankTransactionID := "",
        chequeNumber := "" },
    attachments := [], status := "pending_validation",
    auditorValidation := none, complianceScore := 65 }

/-- A transaction whose stored compliance score sits in the 50–59 bucket. -/
def c3et55 : ExpenditureTransaction :=
  { transactionID := "T55", ngoID := "NGO001", amount := 1000,
    category := "Education", description := "", timestamp := 0,
    invoiceDetails :=
      { invoiceNumber := "", gstin := "", vendorName := "", vendorGSTIN := "",
        invoiceDate := 0, documents := [], bankTransactionID := "",
        chequeNumber := "" },
    attachments := [], status := "pending_validation",
    auditorValidation := none, complianceScore := 55 }

/-- **C3** witness: concrete transactions scoring 65 and 55 are rejected with
the two bucket texts, and a concrete orchestrated expenditure on the seed
platform fails with the recommendation text, leaving the NGO map unchanged. -/
theorem claim_c3_witness :
    ((60:ℚ) ≤ c3et65.complianceScore ∧ c3et65.complianceScore < 70 ∧
      generateRecommendation c3et65 =
        "Conditional approval - Requires additional documentation" ∧
      shouldApproveRec (generateRecommendation c3et65) = false) ∧
    ((50:ℚ) ≤ c3et55.complianceScore ∧ c3et55.complianceScore < 60 ∧
      generateRecommendation c3et55 = "Review required - Significant compliance gaps" ∧
      shouldApproveRec (generateRecommendation c3et55) = false) ∧
    (lookupA c1P.ngos "NGO001" = some c1ngo0 ∧
      lookupA c1P.auditors "AUD00001" = some c1aud ∧
      c1aud.verified = true ∧ c1ed.amount = some 40000 ∧
      (processExpenditure hex00 c1P "NGO001" c1ed "AUD00001" 0 "TXW" 1).2 =
        Except.error ("expenditure rejected by auditor: " ++
          "Reject - Insufficient compliance and documentation") ∧
      (processExpenditure hex00 c1P "NGO001" c1ed "AUD00001" 0 "TXW" 1).1.ngos =
        c1P.ngos) := by
  have h65 := claim_c3.2.1 c3et65 (by norm_num [c3et65]) (by norm_num [c3et65])
  have h55 := claim_c3.2.2.1 c3et55 (by norm_num [c3et55]) (by norm_num [c3et55])
  have hd := claim_c3.2.2.2 hex00 c1P "NGO001" "AUD00001" "TXW" 0 1 c1ed c1ngo0
    c1aud 40000 rfl rfl rfl rfl
  exact ⟨⟨by norm_num [c3et65], by norm_num [c3et65], h65.1, h65.2⟩,
    ⟨by norm_num [c3et55], by norm_num [c3et55], h55.1, h55.2⟩,
    rfl, rfl, rfl, rfl, hd.1, hd.2⟩

/-- The compliance score as the spec words it: the sum of the weights of
exactly those predicates that hold.  Stated from the spec text, to be
compared against calculateComplianceScore, which is translated from the
source. -/
def specComplianceScore (now : GoTime) (et : ExpenditureTransaction) : ℚ :=
  (if et.invoiceDetails.invoiceNumber ≠ "" then 20 else 0) +
  (if verifyGSTIN et.invoiceDetails.gstin then 20 else 0) +
  (if et.invoiceDetails.vendorName ≠ "" ∧ et.invoiceDetails.vendorGSTIN ≠ ""
    then 15 else 0) +
  (if et.invoiceDetails.bankTransactionID ≠ "" ∨ et.invoiceDetails.chequeNumber ≠ ""
    then 15 else 0) +
  (if et.invoiceDetails.documents.length > 0 then 15 else 0) +
  (if et.attachments.length > 0 then 10 else 0) +
  (if hoursBetween now et.invoiceDetails.invoiceDate / 24 ≤ 90 then 5 else 0)

/-- **C8**.  The computed compliance score is the spec's weighted sum capped
at 100, always within [0, 100]; with all seven predicates true it is exactly
100 and with none true it is 0. -/
theorem claim_c8 :
    (∀ (now : GoTime) (et : ExpenditureTransaction),
      calculateComplianceScore now et = min (specComplianceScore now et) 100 ∧
      0 ≤ calculateComplianceScore now et ∧
      calculateComplianceScore now et ≤ 100) ∧
    (∀ (now : GoTime) (et : ExpenditureTransaction),
      et.invoiceDetails.invoiceNumber ≠ "" →
      verifyGSTIN et.invoiceDetails.gstin = true →
      (et.invoiceDetails.vendorName ≠ "" ∧ et.invoiceDetails.vendorGSTIN ≠ "") →
      (et.invoiceDetails.bankTransactionID ≠ "" ∨ et.invoiceDetails.chequeNumber ≠ "") →
      et.invoiceDetails.documents.length > 0 →
      et.attachments.length > 0 →
      hoursBetween now et.invoiceDetails.invoiceDate / 24 ≤ 90 →
      calculateComplianceScore now et = 100) ∧
    (∀ (now : GoTime) (et : ExpenditureTransaction),
      et.invoiceDetails.invoiceNumber = "" →
      verifyGSTIN et.invoiceDetails.gstin = false →
      et.invoiceDetails.vendorGSTIN = "" →
      et.invoiceDetails.bankTransactionID = "" →
      et.invoiceDetails.chequeNumber = "" →
      et.invoiceDetails.documents = [] →
      et.attachments = [] →
      90 < hoursBetween now et.invoiceDetails.invoiceDate / 24 →
      calculateComplianceScore now et = 0) := by
  refine ⟨?_, ?_, ?_⟩
  · intro now et
    unfold calculateComplianceScore specComplianceScore
    split_ifs <;> norm_num
  · intro now et p1 p2 p3 p4 p5 p6 p7
    unfold calculateComplianceScore
    rw [if_pos p1, if_pos p2, if_pos p3, if_pos p4, if_pos p5, if_pos p6, if_pos p7]
    norm_num
  · intro now et p1 p2 p3 p4a p4b p5 p6 p7
    unfold calculateComplianceScore
    rw [if_neg (by simp [p1]), if_neg (by simp [p2]), if_neg (by simp [p3]),
      if_neg (by simp [p4a, p4b]), if_neg (by simp [p5]), if_neg (by simp [p6]),
      if_neg (not_le.mpr p7)]
    norm_num

/-- A transaction satisfying all seven scoring predicates at time 0. -/
def c8etFull : ExpenditureTransaction :=
  { transactionID := "T100", ngoID := "NGO001", amount := 1000,
    category := "Education", description := "", timestamp := 0,
    invoiceDetails :=
      { invoiceNumber := "INV-1", gstin := "27ABCDE1234F1Z5",
        vendorName := "Vendor", vendorGSTIN := "29ZYXWV9876K1Z8",
        invoiceDate := 0, documents := ["d.pdf"], bankTransactionID := "B1",
        chequeNumber := "" },
    attachments :=
      [{ filename := "a.pdf", hash := "h", ftype := "invoice", uploadedAt := 0 }],
    status := "pending_validation", auditorValidation := none,
    complianceScore := 0 }

/-- A transaction satisfying none of the seven scoring predicates at time 0
(its invoice is about 116 days old). -/
def c8etEmpty : ExpenditureTransaction :=
  { transactionID := "T0", ngoID := "NGO001", amount := 1000,
    category := "Education", description := "", timestamp := 0,
    invoiceDetails :=
      { invoiceNumber := "", gstin := "", vendorName := "", vendorGSTIN := "",
        invoiceDate := -10000000000000000, documents := [],
        bankTransactionID := "", chequeNumber := "" },
    attachments := [], status := "pending_validation",
    auditorValidation := none, complianceScore := 0 }

/-- **C8** witness: the all-predicates transaction scores exactly 100 and the
no-predicates transaction scores exactly 0. -/
theorem claim_c8_witness :
    (c8etFull.invoiceDetails.invoiceNumber ≠ "" ∧
      verifyGSTIN c8etFull.invoiceDetails.gstin = true ∧
      (c8etFull.invoiceDetails.vendorName ≠ "" ∧
        c8etFull.invoiceDetails.vendorGSTIN ≠ "") ∧
      (c8etFull.invoiceDetails.bankTransactionID ≠ "" ∨
        c8etFull.invoiceDetails.chequeNumber ≠ "") ∧
      c8etFull.invoiceDetails.documents.length > 0 ∧
      c8etFull.attachments.length > 0 ∧
      hoursBetween 0 c8etFull.invoiceDetails.invoiceDate / 24 ≤ 90 ∧
      calculateComplianceScore 0 c8etFull = 100) ∧
    (c8etEmpty.invoiceDetails.invoiceNumber = "" ∧
      verifyGSTIN c8etEmpty.invoiceDetails.gstin = false ∧
      c8etEmpty.invoiceDetails.vendorGSTIN = "" ∧
      c8etEmpty.invoiceDetails.bankTransactionID = "" ∧
      c8etEmpty.invoiceDetails.chequeNumber = "" ∧
      c8etEmpty.invoiceDetails.documents = [] ∧
      c8etEmpty.attachments = [] ∧
      90 < hoursBetween 0 c8etEmpty.invoiceDetails.invoiceDate / 24 ∧
      calculateComplianceScore 0 c8etEmpty = 0) := by
  have h7full : hoursBetween 0 c8etFull.invoiceDetails.invoiceDate / 24 ≤ 90 := by
    show hoursBetween 0 0 / 24 ≤ (90:ℚ)
    norm_num [hoursBetween]
  have h7empty : (90:ℚ) < hoursBetween 0 c8etEmpty.invoiceDetails.invoiceDate / 24 := by
    show (90:ℚ) < hoursBetween 0 (-10000000000000000) / 24
    norm_num [hoursBetween]
  refine ⟨⟨by decide, by decide, by decide, Or.inl (by decide), by decide, by decide,
      h7full, claim_c8.2.1 0 c8etFull (by decide) (by decide) (by decide)
        (Or.inl (by decide)) (by decide) (by decide) h7full⟩,
    ⟨rfl, by decide, rfl, rfl, rfl, rfl, rfl, h7empty,
      claim_c8.2.2 0 c8etEmpty rfl (by decide) rfl rfl rfl rfl rfl h7empty⟩⟩

/-- **C9**.  VerifyProof succeeds exactly when the proof is present with its
commitment, nullifier and proof each 64-character lowercase hex and the
timestamp within 24 hours of the verification instant; consequently every
GenerateProof output verifies within that window (round trip). -/
theorem claim_c9 :
    (∀ (p : Option ZKProof) (amount : ℚ) (ts now : GoTime),
      verifyProof p amount ts now = true ↔
        ∃ zk, p = some zk ∧ isHex64 zk.commitment = true ∧
          isHex64 zk.nullifier = true ∧ isHex64 zk.proof = true ∧
          |hoursBetween now ts| ≤ 24) ∧
    (∀ H : String → String, (∀ s, isHex64 (H s) = true) →
      ∀ (donorID : String) (amount : ℚ) (ts pnow now : GoTime),
        |hoursBetween now ts| ≤ 24 →
        verifyProof (some (generateProof H donorID amount ts pnow)) amount ts now =
          true) := by
  constructor
  · intro p amount ts now
    constructor
    · intro h
      cases p with
      | none => simp [verifyProof] at h
      | some zk =>
        refine ⟨zk, rfl, ?_⟩
        rw [verifyProof] at h
        by_cases h1 : zk.commitment = "" ∨ zk.nullifier = "" ∨ zk.proof = ""
        · rw [if_pos h1] at h
          exact absurd h (by simp)
        · rw [if_neg h1] at h
          by_cases h2 : |hoursBetween now ts| > 24
          · rw [if_pos h2] at h
            exact absurd h (by simp)
          · rw [if_neg h2] at h
            simp only [Bool.and_eq_true] at h
            exact ⟨h.1.1, h.1.2, h.2, not_lt.mp h2⟩
    · rintro ⟨zk, rfl, hc, hn, hp, ht⟩
      rw [verifyProof]
      rw [if_neg, if_neg]
      · simp [hc, hn, hp]
      · exact not_lt.mpr ht
      · push_neg
        exact ⟨isHex64_ne_empty hc, isHex64_ne_empty hn, isHex64_ne_empty hp⟩
  · intro H hhex donorID amount ts pnow now ht
    exact verifyProof_generateProof H hhex donorID amount ts pnow now ht

/-- **C9** witness: the constant hex digest satisfies the shape hypothesis
and a proof generated at time 5 verifies at time 5. -/
theorem claim_c9_witness :
    ((∀ s, isHex64 (hex00 s) = true) ∧ |hoursBetween 5 5| ≤ (24:ℚ)) ∧
    verifyProof (some (generateProof hex00 "D1" 100 5 5)) 100 5 5 = true ∧
    (verifyProof (some (generateProof hex00 "D1" 100 5 5)) 100 5 5 = true ↔
      ∃ zk, some (generateProof hex00 "D1" 100 5 5) = some zk ∧
        isHex64 zk.commitment = true ∧ isHex64 zk.nullifier = true ∧
        isHex64 zk.proof = true ∧ |hoursBetween 5 5| ≤ 24) := by
  have ht : |hoursBetween 5 5| ≤ (24:ℚ) := by
    norm_num [hoursBetween]
  exact ⟨⟨hex00_isHex, ht⟩,
    claim_c9.2 hex00 hex00_isHex "D1" 100 5 5 5 ht,
    claim_c9.1 (some (generateProof hex00 "D1" 100 5 5)) 100 5 5⟩

/-! ### Tampering with a signed e-bill.  One constructor per signed field
(the signature, QR code and download URL are not signed; the tax benefit is
mutated per subfield). -/

inductive EBillMutation where
  | mBillID (v : String)
  | mTransactionID (v : String)
  | mAmount (q : ℚ)
  | mCurrency (v : String)
  | mTimestamp (t : GoTime)
  | mNgoID (v : String)
  | mDonorHash (v : String)
  | mPaymentMethod (v : String)
  | mTaxSection (v : String)
  | mDeductibleAmount (q : ℚ)
  | mTaxSaving (q : ℚ)
  | mTaxNote (v : String)
  | mReceiptNumber (v : String)
  | mValidityPeriod (v : String)

/-- Overwrite the mutated field with the carried value. -/
def applyEBillMutation : EBillMutation → EBill → EBill
  | .mBillID v, e => { e with billID := v }
  | .mTransactionID v, e => { e with transactionID := v }
  | .mAmount q, e => { e with amount := q }
  | .mCurrency v, e => { e with currency := v }
  | .mTimestamp t, e => { e with timestamp := t }
  | .mNgoID v, e => { e with ngoID := v }
  | .mDonorHash v, e => { e with donorHash := v }
  | .mPaymentMethod v, e => { e with paymentMethod := v }
  | .mTaxSection v, e => { e with taxBenefit := { e.taxBenefit with taxSection := v } }
  | .mDeductibleAmount q, e => { e with taxBenefit := { e.taxBenefit with deductibleAmount := q } }
  | .mTaxSaving q, e => { e with taxBenefit := { e.taxBenefit with taxSaving := q } }
  | .mTaxNote v, e => { e with taxBenefit := { e.taxBenefit with note := v } }
  | .mReceiptNumber v, e => { e with receiptNumber := v }
  | .mValidityPeriod v, e => { e with validityPeriod := v }

/-- The mutation changes what the signature covers: for the timestamp this
is its Unix-seconds projection, for every other field the field itself. -/
def ebillMutChanged : EBillMutation → EBill → Prop
  | .mBillID v, e => v ≠ e.billID
  | .mTransactionID v, e => v ≠ e.transactionID
  | .mAmount q, e => q ≠ e.amount
  | .mCurrency v, e => v ≠ e.currency
  | .mTimestamp t, e => goUnix t ≠ goUnix e.timestamp
  | .mNgoID v, e => v ≠ e.ngoID
  | .mDonorHash v, e => v ≠ e.donorHash
  | .mPaymentMethod v, e => v ≠ e.paymentMethod
  | .mTaxSection v, e => v ≠ e.taxBenefit.taxSection
  | .mDeductibleAmount q, e => q ≠ e.taxBenefit.deductibleAmount
  | .mTaxSaving q, e => q ≠ e.taxBenefit.taxSaving
  | .mTaxNote v, e => v ≠ e.taxBenefit.note
  | .mReceiptNumber v, e => v ≠ e.receiptNumber
  | .mValidityPeriod v, e => v ≠ e.validityPeriod

/-- A changed signed field changes the serialized signing payload: all other
chunks of the rendering agree, so cancellation reduces the equality to the
changed chunk, where the decimal printers are injective. -/
theorem serializeSignedEBill_mut_ne (m : EBillMutation) (e : EBill)
    (hm : ebillMutChanged m e) :
    serializeSignedEBill (applyEBillMutation m e) ≠ serializeSignedEBill e := by
  intro h
  have hd := congrArg String.data h
  cases m with
  | mBillID v =>
    simp only [applyEBillMutation, serializeSignedEBill, serializeTaxBenefit,
      String.data_append, List.append_assoc, List.append_right_inj,
      List.append_left_inj] at hd
    exact hm (String.ext hd)
  | mAmount q =>
    simp only [applyEBillMutation, serializeSignedEBill, serializeTaxBenefit,
      String.data_append, List.append_assoc, List.append_right_inj,
      List.append_left_inj] at hd
    exact hm (ratDec_injective (String.ext hd))
  | mTimestamp t =>
    simp only [applyEBillMutation, serializeSignedEBill, serializeTaxBenefit,
      String.data_append, List.append_assoc, List.append_right_inj,
      List.append_left_inj] at hd
    exact hm (intDec_injective (String.ext hd))
  | mTaxSaving q =>
    simp only [applyEBillMutation, serializeSignedEBill, serializeTaxBenefit,
      String.data_append, List.append_assoc, List.append_right_inj,
      List.append_left_inj] at hd
    exact hm (ratDec_injective (String.ext hd))
  | mValidityPeriod v =>
    simp only [applyEBillMutation, serializeSignedEBill, serializeTaxBenefit,
      String.data_append, List.append_assoc, List.append_right_inj,
      List.append_left_inj] at hd
    exact hm (String.ext hd)
  | mTransactionID v =>
    simp only [applyEBillMutation, serializeSignedEBill, serializeTaxBenefit,
      String.data_append, List.append_assoc, List.append_right_inj,
      List.append_left_inj] at hd
    exact hm (String.ext hd)
  | mCurrency v =>
    simp only [applyEBillMutation, serializeSignedEBill, serializeTaxBenefit,
      String.data_append, List.append_assoc, List.append_right_inj,
      List.append_left_inj] at hd
    exact hm (String.ext hd)
  | mNgoID v =>
    simp only [applyEBillMutation, serializeSignedEBill, serializeTaxBenefit,
      String.data_append, List.append_assoc, List.append_right_inj,
      List.append_left_inj] at hd
    exact hm (String.ext hd)
  | mDonorHash v =>
    simp only [applyEBillMutation, serializeSignedEBill, serializeTaxBenefit,
      String.data_append, List.append_assoc, List.append_right_inj,
      List.append_left_inj] at hd
    exact hm (String.ext hd)
  | mPaymentMethod v =>
    simp only [applyEBillMutation, serializeSignedEBill, serializeTaxBenefit,
      String.data_append, List.append_assoc, List.append_right_inj,
      List.append_left_inj] at hd
    exact hm (String.ext hd)
  | mTaxSection v =>
    simp only [applyEBillMutation, serializeSignedEBill, serializeTaxBenefit,
      String.data_append, List.append_assoc, List.append_right_inj,
      List.append_left_inj] at hd
    exact hm (String.ext hd)
  | mDeductibleAmount q =>
    simp only [applyEBillMutation, serializeSignedEBill, serializeTaxBenefit,
      String.data_append, List.append_assoc, List.append_right_inj,
      List.append_left_inj] at hd
    exact hm (ratDec_injective (String.ext hd))
  | mTaxNote v =>
    simp only [applyEBillMutation, serializeSignedEBill, serializeTaxBenefit,
      String.data_append, List.append_assoc, List.append_right_inj,
      List.append_left_inj] at hd
    exact hm (String.ext hd)
  | mReceiptNumber v =>
    simp only [applyEBillMutation, serializeSignedEBill, serializeTaxBenefit,
      String.data_append, List.append_assoc, List.append_right_inj,
      List.append_left_inj] at hd
    exact hm (String.ext hd)

theorem applyEBillMutation_signature (m : EBillMutation) (e : EBill) :
    (applyEBillMutation m e).signature = e.signature := by
  cases m <;> rfl

theorem validateEBill_mut_false (H : String → String)
    (hinj : Function.Injective H) (dt : DonationTransaction) (e : EBill)
    (m : EBillMutation)
    (hsig : e.signature = generateBillSignature H e)
    (hm : ebillMutChanged m e) :
    validateEBill H { dt with eBill := some (applyEBillMutation m e) } = false := by
  show ((applyEBillMutation m e).signature ==
    generateBillSignature H (applyEBillMutation m e)) = false
  rw [applyEBillMutation_signature, hsig]
  rw [beq_eq_false_iff_ne]
  intro hcontra
  exact serializeSignedEBill_mut_ne m e hm (hinj hcontra).symm

theorem serialize_ts_bump (e : EBill)
    (h : goUnix (e.timestamp + 1) = goUnix e.timestamp) :
    serializeSignedEBill { e with timestamp := e.timestamp + 1 } =
      serializeSignedEBill e := by
  simp only [serializeSignedEBill]
  rw [h]

theorem validate_ts_bump (H : String → String) (dt : DonationTransaction)
    (e : EBill) (hsig : e.signature = generateBillSignature H e)
    (hU : goUnix (e.timestamp + 1) = goUnix e.timestamp) :
    validateEBill H
      { dt with eBill := some { e with timestamp := e.timestamp + 1 } } = true := by
  have h1 : generateBillSignature H { e with timestamp := e.timestamp + 1 } =
      generateBillSignature H e := by
    unfold generateBillSignature
    rw [serialize_ts_bump e hU]
  show (({ e with timestamp := e.timestamp + 1 }).signature ==
    generateBillSignature H { e with timestamp := e.timestamp + 1 }) = true
  rw [h1]
  show (e.signature == generateBillSignature H e) = true
  rw [hsig, beq_self_eq_true]

/-- The identity digest: injective and kernel-computable, standing in for
SHA-256 in the concrete e-bill evaluations. -/
def idH : String → String := fun s => s
/-- Random identifiers drawn while building the concrete donation. -/
def c10rnd : DonationRnd := { txId := "tx000010", billId := "bill000010" }
/-- A donation of 500 built at UnixNano instant 1 (within second 0). -/
def c10dt : DonationTransaction :=
  newDonationTransaction idH 1 c10rnd "D10" "NGO10" 500 "UPI" "kyc10"

/-- **C10** (counterexample).  The signature covers the timestamp only at
Unix-seconds resolution: bumping the fresh e-bill timestamp by one
nanosecond mutates a signed field, yet ValidateEBill still returns true. -/
theorem claim_c10_counterexample :
    ∃ e : EBill, c10dt.eBill = some e ∧
      validateEBill idH c10dt = true ∧
      ({ e with timestamp := e.timestamp + 1 }).timestamp ≠ e.timestamp ∧
      validateEBill idH
        { c10dt with eBill := some { e with timestamp := e.timestamp + 1 } } = true := by
  refine ⟨_, rfl, ?_, ?_, ?_⟩
  · exact validateEBill_fresh idH 1 c10rnd "D10" "NGO10" 500 "UPI" "kyc10"
  · decide
  · exact validate_ts_bump idH c10dt _ rfl (by decide)

/-- **C10** (amended).  ValidateEBill is true on every freshly constructed
donation; and under a collision-free digest, mutating any signed e-bill
field fails validation whenever the mutation changes what the signature
covers — any change for ten of the fields and the tax-benefit subfields,
and any change to the Unix-seconds projection for the timestamp. -/
theorem claim_c10_amended (H : String → String) (hinj : Function.Injective H) :
    (∀ (now : GoTime) (rnd : DonationRnd) (donorID ngoID : String) (amount : ℚ)
        (pm kyc : String),
      validateEBill H (newDonationTransaction H now rnd donorID ngoID amount pm kyc) = true) ∧
    (∀ (dt : DonationTransaction) (e : EBill) (m : EBillMutation),
      dt.eBill = some e →
      e.signature = generateBillSignature H e →
      ebillMutChanged m e →
      validateEBill H { dt with eBill := some (applyEBillMutation m e) } = false) := by
  refine ⟨fun now rnd donorID ngoID amount pm kyc =>
    validateEBill_fresh H now rnd donorID ngoID amount pm kyc,
    fun dt e m _ hsig hm => validateEBill_mut_false H hinj dt e m hsig hm⟩

/-- **C10** witness: the identity digest is injective, the concrete fresh
donation validates, and overwriting its bill id with X fails validation. -/
theorem claim_c10_witness :
    Function.Injective idH ∧
    validateEBill idH c10dt = true ∧
    (∃ e, c10dt.eBill = some e ∧ e.signature = generateBillSignature idH e ∧
      ebillMutChanged (.mBillID "X") e ∧
      validateEBill idH
        { c10dt with eBill := some (applyEBillMutation (.mBillID "X") e) } = false) := by
  refine ⟨fun a b h => h,
    (claim_c10_amended idH (fun a b h => h)).1 1 c10rnd "D10" "NGO10" 500 "UPI" "kyc10",
    _, rfl, rfl, by simp only [ebillMutChanged]; decide,
    (claim_c10_amended idH (fun a b h => h)).2 c10dt _ (.mBillID "X") rfl rfl
      (by simp only [ebillMutChanged]; decide)⟩

end Trusture
